import Mathlib

/-!
Verification of the USB HID usage-page registry of this repository
(src/lib/src/page.rs) and of the consumer report loop of
src/src/bin/consumer_fixed.rs, over a shallow embedding of the Rust code.
Each usage-page enum is embedded as a Lean inductive together with its
discriminant table, the num_enum FromPrimitive/IntoPrimitive conversions, the
Default impl, the derived discriminant ordering and the hash32 Hash impl.
-/

set_option maxRecDepth 8000

/-- Little-endian byte sequence of a u8 value, as Rust to_le_bytes yields it. -/
def u8ToLeBytes (x : Nat) : List Nat := [x % 256]

/-- Little-endian byte sequence of a u16 value, as Rust to_le_bytes yields it. -/
def u16ToLeBytes (x : Nat) : List Nat := [x % 256, x / 256 % 256]

/-- The `Leds` usage page enum of src/lib/src/page.rs (Section 11 LED Page (0x08)), a
fieldless Rust enum with `repr(u8)` and one explicit discriminant per variant;
the first variant `Undefined` carries the num_enum default attribute. -/
inductive Leds where
  | Undefined
  | NumLock
  | CapsLock
  | ScrollLock
  | Compose
  | Kana
  | Power
  | Shift
  | DoNotDisturb
  | Mute
  | ToneEnable
  | HighCutFilter
  | LowCutFilter
  | EqualizerEnable
  | SoundFieldOn
  | SurroundFieldOn
  | Repeat
  | Stereo
  | SamplingRateDetect
  | Spinning
  | CAV
  | CLV
  | RecordingFormatDetect
  | OffHook
  | Ring
  | MessageWaiting
  | DataMode
  | BatteryOperation
  | BatteryOK
  | BatteryLow
  | Speaker
  | HeadSet
  | Hold
  | Microphone
  | Coverage
  | NightMode
  | SendCalls
  | CallPickup
  | Conference
  | StandBy
  | CameraOn
  | CameraOff
  | OnLine
  | OffLine
  | Busy
  | Ready
  | PaperOut
  | PaperJam
  | Remote
  | Forward
  | Reverse
  | Stop
  | Rewind
  | FastForward
  | Play
  | Pause
  | Record
  | Error
  | UsageSelectedIndicator
  | UsageInUseIndicator
  | UsageMultiModeIndicator
  | IndicatorOn
  | IndicatorFlash
  | IndicatorSlowBlink
  | IndicatorFastBlink
  | IndicatorOff
  | FlashOnTime
  | SlowBlinkOnTime
  | SlowBlinkOffTime
  | FastBlinkOnTime
  | FastBlinkOffTime
  | UsageIndicatorColor
  | Red
  | Green
  | Amber
  | GenericIndicator
deriving DecidableEq

namespace Leds

/-- The explicit discriminant of each variant of `Leds`, exactly as declared in
src/lib/src/page.rs; this is the numeric value that IntoPrimitive, FromPrimitive
and the derived Ord all read. -/
def code : Leds → Nat
  | Leds.Undefined => 0x00
  | Leds.NumLock => 0x01
  | Leds.CapsLock => 0x02
  | Leds.ScrollLock => 0x03
  | Leds.Compose => 0x04
  | Leds.Kana => 0x05
  | Leds.Power => 0x06
  | Leds.Shift => 0x07
  | Leds.DoNotDisturb => 0x08
  | Leds.Mute => 0x09
  | Leds.ToneEnable => 0x0A
  | Leds.HighCutFilter => 0x0B
  | Leds.LowCutFilter => 0x0C
  | Leds.EqualizerEnable => 0x0D
  | Leds.SoundFieldOn => 0x0E
  | Leds.SurroundFieldOn => 0x0F
  | Leds.Repeat => 0x10
  | Leds.Stereo => 0x11
  | Leds.SamplingRateDetect => 0x12
  | Leds.Spinning => 0x13
  | Leds.CAV => 0x14
  | Leds.CLV => 0x15
  | Leds.RecordingFormatDetect => 0x16
  | Leds.OffHook => 0x17
  | Leds.Ring => 0x18
  | Leds.MessageWaiting => 0x19
  | Leds.DataMode => 0x1A
  | Leds.BatteryOperation => 0x1B
  | Leds.BatteryOK => 0x1C
  | Leds.BatteryLow => 0x1D
  | Leds.Speaker => 0x1E
  | Leds.HeadSet => 0x1F
  | Leds.Hold => 0x20
  | Leds.Microphone => 0x21
  | Leds.Coverage => 0x22
  | Leds.NightMode => 0x23
  | Leds.SendCalls => 0x24
  | Leds.CallPickup => 0x25
  | Leds.Conference => 0x26
  | Leds.StandBy => 0x27
  | Leds.CameraOn => 0x28
  | Leds.CameraOff => 0x29
  | Leds.OnLine => 0x2A
  | Leds.OffLine => 0x2B
  | Leds.Busy => 0x2C
  | Leds.Ready => 0x2D
  | Leds.PaperOut => 0x2E
  | Leds.PaperJam => 0x2F
  | Leds.Remote => 0x30
  | Leds.Forward => 0x31
  | Leds.Reverse => 0x32
  | Leds.Stop => 0x33
  | Leds.Rewind => 0x34
  | Leds.FastForward => 0x35
  | Leds.Play => 0x36
  | Leds.Pause => 0x37
  | Leds.Record => 0x38
  | Leds.Error => 0x39
  | Leds.UsageSelectedIndicator => 0x3A
  | Leds.UsageInUseIndicator => 0x3B
  | Leds.UsageMultiModeIndicator => 0x3C
  | Leds.IndicatorOn => 0x3D
  | Leds.IndicatorFlash => 0x3E
  | Leds.IndicatorSlowBlink => 0x3F
  | Leds.IndicatorFastBlink => 0x40
  | Leds.IndicatorOff => 0x41
  | Leds.FlashOnTime => 0x42
  | Leds.SlowBlinkOnTime => 0x43
  | Leds.SlowBlinkOffTime => 0x44
  | Leds.FastBlinkOnTime => 0x45
  | Leds.FastBlinkOffTime => 0x46
  | Leds.UsageIndicatorColor => 0x47
  | Leds.Red => 0x48
  | Leds.Green => 0x49
  | Leds.Amber => 0x4A
  | Leds.GenericIndicator => 0x4B

/-- All variants of the `Leds` enum in declaration order. -/
def variants : List Leds := [
  Leds.Undefined, Leds.NumLock, Leds.CapsLock, Leds.ScrollLock, Leds.Compose, Leds.Kana,
  Leds.Power, Leds.Shift, Leds.DoNotDisturb, Leds.Mute, Leds.ToneEnable, Leds.HighCutFilter,
  Leds.LowCutFilter, Leds.EqualizerEnable, Leds.SoundFieldOn, Leds.SurroundFieldOn, Leds.Repeat,
  Leds.Stereo, Leds.SamplingRateDetect, Leds.Spinning, Leds.CAV, Leds.CLV,
  Leds.RecordingFormatDetect, Leds.OffHook, Leds.Ring, Leds.MessageWaiting, Leds.DataMode,
  Leds.BatteryOperation, Leds.BatteryOK, Leds.BatteryLow, Leds.Speaker, Leds.HeadSet, Leds.Hold,
  Leds.Microphone, Leds.Coverage, Leds.NightMode, Leds.SendCalls, Leds.CallPickup,
  Leds.Conference, Leds.StandBy, Leds.CameraOn, Leds.CameraOff, Leds.OnLine, Leds.OffLine,
  Leds.Busy, Leds.Ready, Leds.PaperOut, Leds.PaperJam, Leds.Remote, Leds.Forward, Leds.Reverse,
  Leds.Stop, Leds.Rewind, Leds.FastForward, Leds.Play, Leds.Pause, Leds.Record, Leds.Error,
  Leds.UsageSelectedIndicator, Leds.UsageInUseIndicator, Leds.UsageMultiModeIndicator,
  Leds.IndicatorOn, Leds.IndicatorFlash, Leds.IndicatorSlowBlink, Leds.IndicatorFastBlink,
  Leds.IndicatorOff, Leds.FlashOnTime, Leds.SlowBlinkOnTime, Leds.SlowBlinkOffTime,
  Leds.FastBlinkOnTime, Leds.FastBlinkOffTime, Leds.UsageIndicatorColor, Leds.Red, Leds.Green,
  Leds.Amber, Leds.GenericIndicator]

/-- The IntoPrimitive conversion of the `Leds` enum: a fieldless enum converts
to its `u8` discriminant value. -/
def toCode (v : Leds) : Nat := code v

/-- The Default impl for `Leds` in src/lib/src/page.rs returns `Undefined`. -/
def default : Leds := Leds.Undefined

/-- The num_enum FromPrimitive conversion for `Leds`: the generated match tries
each declared discriminant and falls back to the variant marked num_enum default
(`Undefined`, which is also the Default value) on any other input. -/
def fromCode (c : Nat) : Leds :=
  (variants.find? (fun v => code v == c)).getD default

/-- The derived Ord for the `Leds` enum: Rust orders fieldless enum values by
comparing their discriminant values. -/
def cmp (a b : Leds) : Ordering := compare (code a) (code b)

/-- The strict order given by the derived PartialOrd/Ord of `Leds`. -/
def lt (a b : Leds) : Prop := cmp a b = Ordering.lt

/-- The hash32 Hash impl for `Leds` in src/lib/src/page.rs: it converts the value
to its u8 code and writes the little-endian bytes of that code to the hasher;
this list is the byte sequence the hasher consumes. -/
def hashBytes (v : Leds) : List Nat := u8ToLeBytes (code v)

/-- The named (non-fallback) variants of `Leds`: every variant except the
fallback `Undefined`, which is declared first. -/
def namedVariants : List Leds := variants.drop 1

/-- The codes assigned to named variants of `Leds`. -/
def namedCodes : List Nat := namedVariants.map code

/-- All assigned codes of `Leds`, the fallback code 0 included. -/
def assignedCodes : List Nat := variants.map code

end Leds

/-- The `Consumer` usage page enum of src/lib/src/page.rs (Section 15 Consumer Page (0x0C)), a
fieldless Rust enum with `repr(u16)` and one explicit discriminant per variant;
the first variant `Unassigned` carries the num_enum default attribute. -/
inductive Consumer where
  | Unassigned
  | ConsumerControl
  | NumericKeyPad
  | ProgrammableButtons
  | Microphone
  | Headphone
  | GraphicEqualizer
  | Plus10
  | Plus100
  | AmPm
  | Power
  | Reset
  | Sleep
  | SleepAfter
  | SleepMode
  | Illumination
  | FunctionButtons
  | Menu
  | MenuPick
  | MenuUp
  | MenuDown
  | MenuLeft
  | MenuRight
  | MenuEscape
  | MenuValueIncrease
  | MenuValueDecrease
  | DataOnScreen
  | ClosedCaption
  | ClosedCaptionSelect
  | VcrTv
  | BroadcastMode
  | Snapshot
  | Still
  | Selection
  | AssignSelection
  | ModeStep
  | RecallLast
  | EnterChannel
  | OrderMovie
  | Channel
  | MediaSelection
  | MediaSelectComputer
  | MediaSelectTV
  | MediaSelectWWW
  | MediaSelectDVD
  | MediaSelectTelephone
  | MediaSelectProgramGuide
  | MediaSelectVideoPhone
  | MediaSelectGames
  | MediaSelectMessages
  | MediaSelectCD
  | MediaSelectVCR
  | MediaSelectTuner
  | Quit
  | Help
  | MediaSelectTape
  | MediaSelectCable
  | MediaSelectSatellite
  | MediaSelectSecurity
  | MediaSelectHome
  | MediaSelectCall
  | ChannelIncrement
  | ChannelDecrement
  | MediaSelectSAP
  | VCRPlus
  | Once
  | Daily
  | Weekly
  | Monthly
  | Play
  | Pause
  | Record
  | FastForward
  | Rewind
  | ScanNextTrack
  | ScanPreviousTrack
  | Stop
  | Eject
  | RandomPlay
  | SelectDisc
  | EnterDisc
  | Repeat
  | Tracking
  | TrackNormal
  | SlowTracking
  | FrameForward
  | FrameBack
  | Mark
  | ClearMark
  | RepeatFromMark
  | ReturnToMark
  | SearchMarkForward
  | SearchMarkBackwards
  | CounterReset
  | ShowCounter
  | TrackingIncrement
  | TrackingDecrement
  | StopEject
  | PlayPause
  | PlaySkip
  | Volume
  | Balance
  | Mute
  | Bass
  | Treble
  | BassBoost
  | SurroundMode
  | Loudness
  | MPX
  | VolumeIncrement
  | VolumeDecrement
  | SpeedSelect
  | PlaybackSpeed
  | StandardPlay
  | LongPlay
  | ExtendedPlay
  | Slow
  | FanEnable
  | FanSpeed
  | LightEnable
  | LightIlluminationLevel
  | ClimateControlEnable
  | RoomTemperature
  | SecurityEnable
  | FireAlarm
  | PoliceAlarm
  | Proximity
  | Motion
  | DuressAlarm
  | HoldupAlarm
  | MedicalAlarm
  | BalanceRight
  | BalanceLeft
  | BassIncrement
  | BassDecrement
  | TrebleIncrement
  | TrebleDecrement
  | SpeakerSystem
  | ChannelLeft
  | ChannelRight
  | ChannelCenter
  | ChannelFront
  | ChannelCenterFront
  | ChannelSide
  | ChannelSurround
  | ChannelLowFrequencyEnhancement
  | ChannelTop
  | ChannelUnknown
  | SubChannel
  | SubChannelIncrement
  | SubChannelDecrement
  | AlternateAudioIncrement
  | AlternateAudioDecrement
  | ApplicationLaunchButtons
  | ALLaunchButtonConfigurationTool
  | ALProgrammableButtonConfiguration
  | ALConsumerControlConfiguration
  | ALWordProcessor
  | ALTextEditor
  | ALSpreadsheet
  | ALGraphicsEditor
  | ALPresentationApp
  | ALDatabaseApp
  | ALEmailReader
  | ALNewsreader
  | ALVoicemail
  | ALContactsAddressBook
  | ALCalendarSchedule
  | ALTaskProjectManager
  | ALLogJournalTimecard
  | ALCheckbookFinance
  | ALCalculator
  | ALAvCapturePlayback
  | ALLocalMachineBrowser
  | ALLanWanBrowser
  | ALInternetBrowser
  | ALRemoteNetworkingISPConnect
  | ALNetworkConference
  | ALNetworkChat
  | ALTelephonyDialer
  | ALLogon
  | ALLogoff
  | ALLogonLogoff
  | ALTerminalLockScreensaver
  | ALControlPanel
  | ALCommandLineProcessorRun
  | ALProcessTaskManager
  | ALSelectTaskApplication
  | ALNextTaskApplication
  | ALPreviousTaskApplication
  | ALPreemptiveHaltTaskApplication
  | ALIntegratedHelpCenter
  | ALDocuments
  | ALThesaurus
  | ALDictionary
  | ALDesktop
  | ALSpellCheck
  | ALGrammarCheck
  | ALWirelessStatus
  | ALKeyboardLayout
  | ALVirusProtection
  | ALEncryption
  | ALScreenSaver
  | ALAlarms
  | ALClock
  | ALFileBrowser
  | ALPowerStatus
  | ALImageBrowser
  | ALAudioBrowser
  | ALMovieBrowser
  | ALDigitalRightsManager
  | ALDigitalWallet
  | ALInstantMessaging
  | ALOemFeaturesTipsTutorialBrowser
  | ALOemHelp
  | ALOnlineCommunity
  | ALEntertainmentContentBrowser
  | ALOnlineShoppingBrowser
  | ALSmartCardInformationHelp
  | ALMarketMonitorFinanceBrowser
  | ALCustomizedCorporateNewsBrowser
  | ALOnlineActivityBrowser
  | ALResearchSearchBrowser
  | ALAudioPlayer
  | GenericGUIApplicationControls
  | ACNew
  | ACOpen
  | ACClose
  | ACExit
  | ACMaximize
  | ACMinimize
  | ACSave
  | ACPrint
  | ACProperties
  | ACUndo
  | ACCopy
  | ACCut
  | ACPaste
  | ACSelectAll
  | ACFind
  | ACFindAndReplace
  | ACSearch
  | ACGoTo
  | ACHome
  | ACBack
  | ACForward
  | ACStop
  | ACRefresh
  | ACPreviousLink
  | ACNextLink
  | ACBookmarks
  | ACHistory
  | ACSubscriptions
  | ACZoomIn
  | ACZoomOut
  | ACZoom
  | ACFullScreenView
  | ACNormalView
  | ACViewToggle
  | ACScrollUp
  | ACScrollDown
  | ACScroll
  | ACPanLeft
  | ACPanRight
  | ACPan
  | ACNewWindow
  | ACTileHorizontally
  | ACTileVertically
  | ACFormat
  | ACEdit
  | ACBold
  | ACItalics
  | ACUnderline
  | ACStrikethrough
  | ACSubscript
  | ACSuperscript
  | ACAllCaps
  | ACRotate
  | ACResize
  | ACFlipHorizontal
  | ACFlipVertical
  | ACMirrorHorizontal
  | ACMirrorVertical
  | ACFontSelect
  | ACFontColor
  | ACFontSize
  | ACJustifyLeft
  | ACJustifyCenterH
  | ACJustifyRight
  | ACJustifyBlockH
  | ACJustifyTop
  | ACJustifyCenterV
  | ACJustifyBottom
  | ACJustifyBlockV
  | ACIndentDecrease
  | ACIndentIncrease
  | ACNumberedList
  | ACRestartNumbering
  | ACBulletedList
  | ACPromote
  | ACDemote
  | ACYes
  | ACNo
  | ACCancel
  | ACCatalog
  | ACBuyCheckout
  | ACAddToCart
  | ACExpand
  | ACExpandAll
  | ACCollapse
  | ACCollapseAll
  | ACPrintPreview
  | ACPasteSpecial
  | ACInsertMode
  | ACDelete
  | ACLock
  | ACUnlock
  | ACProtect
  | ACUnprotect
  | ACAttachComment
  | ACDeleteComment
  | ACViewComment
  | ACSelectWord
  | ACSelectSentence
  | ACSelectParagraph
  | ACSelectColumn
  | ACSelectRow
  | ACSelectTable
  | ACSelectObject
  | ACRedoRepeat
  | ACSort
  | ACSortAscending
  | ACSortDescending
  | ACFilter
  | ACSetClock
  | ACViewClock
  | ACSelectTimeZone
  | ACEditTimeZones
  | ACSetAlarm
  | ACClearAlarm
  | ACSnoozeAlarm
  | ACResetAlarm
  | ACSynchronize
  | ACSendReceive
  | ACSendTo
  | ACReply
  | ACReplyAll
  | ACForwardMsg
  | ACSend
  | ACAttachFile
  | ACUpload
  | ACDownloadSaveTargetAs
  | ACSetBorders
  | ACInsertRow
  | ACInsertColumn
  | ACInsertFile
  | ACInsertPicture
  | ACInsertObject
  | ACInsertSymbol
  | ACSaveAndClose
  | ACRename
  | ACMerge
  | ACSplit
  | ACDistributeHorizontally
  | ACDistributeVertically
deriving DecidableEq

namespace Consumer

/-- The explicit discriminant of each variant of `Consumer`, exactly as declared in
src/lib/src/page.rs; this is the numeric value that IntoPrimitive, FromPrimitive
and the derived Ord all read. -/
def code : Consumer → Nat
  | Consumer.Unassigned => 0x00
  | Consumer.ConsumerControl => 0x01
  | Consumer.NumericKeyPad => 0x02
  | Consumer.ProgrammableButtons => 0x03
  | Consumer.Microphone => 0x04
  | Consumer.Headphone => 0x05
  | Consumer.GraphicEqualizer => 0x06
  | Consumer.Plus10 => 0x20
  | Consumer.Plus100 => 0x21
  | Consumer.AmPm => 0x22
  | Consumer.Power => 0x30
  | Consumer.Reset => 0x31
  | Consumer.Sleep => 0x32
  | Consumer.SleepAfter => 0x33
  | Consumer.SleepMode => 0x34
  | Consumer.Illumination => 0x35
  | Consumer.FunctionButtons => 0x36
  | Consumer.Menu => 0x40
  | Consumer.MenuPick => 0x41
  | Consumer.MenuUp => 0x42
  | Consumer.MenuDown => 0x43
  | Consumer.MenuLeft => 0x44
  | Consumer.MenuRight => 0x45
  | Consumer.MenuEscape => 0x46
  | Consumer.MenuValueIncrease => 0x47
  | Consumer.MenuValueDecrease => 0x48
  | Consumer.DataOnScreen => 0x60
  | Consumer.ClosedCaption => 0x61
  | Consumer.ClosedCaptionSelect => 0x62
  | Consumer.VcrTv => 0x63
  | Consumer.BroadcastMode => 0x64
  | Consumer.Snapshot => 0x65
  | Consumer.Still => 0x66
  | Consumer.Selection => 0x80
  | Consumer.AssignSelection => 0x81
  | Consumer.ModeStep => 0x82
  | Consumer.RecallLast => 0x83
  | Consumer.EnterChannel => 0x84
  | Consumer.OrderMovie => 0x85
  | Consumer.Channel => 0x86
  | Consumer.MediaSelection => 0x87
  | Consumer.MediaSelectComputer => 0x88
  | Consumer.MediaSelectTV => 0x89
  | Consumer.MediaSelectWWW => 0x8A
  | Consumer.MediaSelectDVD => 0x8B
  | Consumer.MediaSelectTelephone => 0x8C
  | Consumer.MediaSelectProgramGuide => 0x8D
  | Consumer.MediaSelectVideoPhone => 0x8E
  | Consumer.MediaSelectGames => 0x8F
  | Consumer.MediaSelectMessages => 0x90
  | Consumer.MediaSelectCD => 0x91
  | Consumer.MediaSelectVCR => 0x92
  | Consumer.MediaSelectTuner => 0x93
  | Consumer.Quit => 0x94
  | Consumer.Help => 0x95
  | Consumer.MediaSelectTape => 0x96
  | Consumer.MediaSelectCable => 0x97
  | Consumer.MediaSelectSatellite => 0x98
  | Consumer.MediaSelectSecurity => 0x99
  | Consumer.MediaSelectHome => 0x9A
  | Consumer.MediaSelectCall => 0x9B
  | Consumer.ChannelIncrement => 0x9C
  | Consumer.ChannelDecrement => 0x9D
  | Consumer.MediaSelectSAP => 0x9E
  | Consumer.VCRPlus => 0xA0
  | Consumer.Once => 0xA1
  | Consumer.Daily => 0xA2
  | Consumer.Weekly => 0xA3
  | Consumer.Monthly => 0xA4
  | Consumer.Play => 0xB0
  | Consumer.Pause => 0xB1
  | Consumer.Record => 0xB2
  | Consumer.FastForward => 0xB3
  | Consumer.Rewind => 0xB4
  | Consumer.ScanNextTrack => 0xB5
  | Consumer.ScanPreviousTrack => 0xB6
  | Consumer.Stop => 0xB7
  | Consumer.Eject => 0xB8
  | Consumer.RandomPlay => 0xB9
  | Consumer.SelectDisc => 0xBA
  | Consumer.EnterDisc => 0xBB
  | Consumer.Repeat => 0xBC
  | Consumer.Tracking => 0xBD
  | Consumer.TrackNormal => 0xBE
  | Consumer.SlowTracking => 0xBF
  | Consumer.FrameForward => 0xC0
  | Consumer.FrameBack => 0xC1
  | Consumer.Mark => 0xC2
  | Consumer.ClearMark => 0xC3
  | Consumer.RepeatFromMark => 0xC4
  | Consumer.ReturnToMark => 0xC5
  | Consumer.SearchMarkForward => 0xC6
  | Consumer.SearchMarkBackwards => 0xC7
  | Consumer.CounterReset => 0xC8
  | Consumer.ShowCounter => 0xC9
  | Consumer.TrackingIncrement => 0xCA
  | Consumer.TrackingDecrement => 0xCB
  | Consumer.StopEject => 0xCC
  | Consumer.PlayPause => 0xCD
  | Consumer.PlaySkip => 0xCE
  | Consumer.Volume => 0xE0
  | Consumer.Balance => 0xE1
  | Consumer.Mute => 0xE2
  | Consumer.Bass => 0xE3
  | Consumer.Treble => 0xE4
  | Consumer.BassBoost => 0xE5
  | Consumer.SurroundMode => 0xE6
  | Consumer.Loudness => 0xE7
  | Consumer.MPX => 0xE8
  | Consumer.VolumeIncrement => 0xE9
  | Consumer.VolumeDecrement => 0xEA
  | Consumer.SpeedSelect => 0xF0
  | Consumer.PlaybackSpeed => 0xF1
  | Consumer.StandardPlay => 0xF2
  | Consumer.LongPlay => 0xF3
  | Consumer.ExtendedPlay => 0xF4
  | Consumer.Slow => 0xF5
  | Consumer.FanEnable => 0x100
  | Consumer.FanSpeed => 0x101
  | Consumer.LightEnable => 0x102
  | Consumer.LightIlluminationLevel => 0x103
  | Consumer.ClimateControlEnable => 0x104
  | Consumer.RoomTemperature => 0x105
  | Consumer.SecurityEnable => 0x106
  | Consumer.FireAlarm => 0x107
  | Consumer.PoliceAlarm => 0x108
  | Consumer.Proximity => 0x109
  | Consumer.Motion => 0x10A
  | Consumer.DuressAlarm => 0x10B
  | Consumer.HoldupAlarm => 0x10C
  | Consumer.MedicalAlarm => 0x10D
  | Consumer.BalanceRight => 0x150
  | Consumer.BalanceLeft => 0x151
  | Consumer.BassIncrement => 0x152
  | Consumer.BassDecrement => 0x153
  | Consumer.TrebleIncrement => 0x154
  | Consumer.TrebleDecrement => 0x155
  | Consumer.SpeakerSystem => 0x160
  | Consumer.ChannelLeft => 0x161
  | Consumer.ChannelRight => 0x162
  | Consumer.ChannelCenter => 0x163
  | Consumer.ChannelFront => 0x164
  | Consumer.ChannelCenterFront => 0x165
  | Consumer.ChannelSide => 0x166
  | Consumer.ChannelSurround => 0x167
  | Consumer.ChannelLowFrequencyEnhancement => 0x168
  | Consumer.ChannelTop => 0x169
  | Consumer.ChannelUnknown => 0x16A
  | Consumer.SubChannel => 0x170
  | Consumer.SubChannelIncrement => 0x171
  | Consumer.SubChannelDecrement => 0x172
  | Consumer.AlternateAudioIncrement => 0x173
  | Consumer.AlternateAudioDecrement => 0x174
  | Consumer.ApplicationLaunchButtons => 0x180
  | Consumer.ALLaunchButtonConfigurationTool => 0x181
  | Consumer.ALProgrammableButtonConfiguration => 0x182
  | Consumer.ALConsumerControlConfiguration => 0x183
  | Consumer.ALWordProcessor => 0x184
  | Consumer.ALTextEditor => 0x185
  | Consumer.ALSpreadsheet => 0x186
  | Consumer.ALGraphicsEditor => 0x187
  | Consumer.ALPresentationApp => 0x188
  | Consumer.ALDatabaseApp => 0x189
  | Consumer.ALEmailReader => 0x18A
  | Consumer.ALNewsreader => 0x18B
  | Consumer.ALVoicemail => 0x18C
  | Consumer.ALContactsAddressBook => 0x18D
  | Consumer.ALCalendarSchedule => 0x18E
  | Consumer.ALTaskProjectManager => 0x18F
  | Consumer.ALLogJournalTimecard => 0x190
  | Consumer.ALCheckbookFinance => 0x191
  | Consumer.ALCalculator => 0x192
  | Consumer.ALAvCapturePlayback => 0x193
  | Consumer.ALLocalMachineBrowser => 0x194
  | Consumer.ALLanWanBrowser => 0x195
  | Consumer.ALInternetBrowser => 0x196
  | Consumer.ALRemoteNetworkingISPConnect => 0x197
  | Consumer.ALNetworkConference => 0x198
  | Consumer.ALNetworkChat => 0x199
  | Consumer.ALTelephonyDialer => 0x19A
  | Consumer.ALLogon => 0x19B
  | Consumer.ALLogoff => 0x19C
  | Consumer.ALLogonLogoff => 0x19D
  | Consumer.ALTerminalLockScreensaver => 0x19E
  | Consumer.ALControlPanel => 0x19F
  | Consumer.ALCommandLineProcessorRun => 0x1A0
  | Consumer.ALProcessTaskManager => 0x1A1
  | Consumer.ALSelectTaskApplication => 0x1A2
  | Consumer.ALNextTaskApplication => 0x1A3
  | Consumer.ALPreviousTaskApplication => 0x1A4
  | Consumer.ALPreemptiveHaltTaskApplication => 0x1A5
  | Consumer.ALIntegratedHelpCenter => 0x1A6
  | Consumer.ALDocuments => 0x1A7
  | Consumer.ALThesaurus => 0x1A8
  | Consumer.ALDictionary => 0x1A9
  | Consumer.ALDesktop => 0x1AA
  | Consumer.ALSpellCheck => 0x1AB
  | Consumer.ALGrammarCheck => 0x1AC
  | Consumer.ALWirelessStatus => 0x1AD
  | Consumer.ALKeyboardLayout => 0x1AE
  | Consumer.ALVirusProtection => 0x1AF
  | Consumer.ALEncryption => 0x1B0
  | Consumer.ALScreenSaver => 0x1B1
  | Consumer.ALAlarms => 0x1B2
  | Consumer.ALClock => 0x1B3
  | Consumer.ALFileBrowser => 0x1B4
  | Consumer.ALPowerStatus => 0x1B5
  | Consumer.ALImageBrowser => 0x1B6
  | Consumer.ALAudioBrowser => 0x1B7
  | Consumer.ALMovieBrowser => 0x1B8
  | Consumer.ALDigitalRightsManager => 0x1B9
  | Consumer.ALDigitalWallet => 0x1BA
  | Consumer.ALInstantMessaging => 0x1BC
  | Consumer.ALOemFeaturesTipsTutorialBrowser => 0x1BD
  | Consumer.ALOemHelp => 0x1BE
  | Consumer.ALOnlineCommunity => 0x1BF
  | Consumer.ALEntertainmentContentBrowser => 0x1C0
  | Consumer.ALOnlineShoppingBrowser => 0x1C1
  | Consumer.ALSmartCardInformationHelp => 0x1C2
  | Consumer.ALMarketMonitorFinanceBrowser => 0x1C3
  | Consumer.ALCustomizedCorporateNewsBrowser => 0x1C4
  | Consumer.ALOnlineActivityBrowser => 0x1C5
  | Consumer.ALResearchSearchBrowser => 0x1C6
  | Consumer.ALAudioPlayer => 0x1C7
  | Consumer.GenericGUIApplicationControls => 0x200
  | Consumer.ACNew => 0x201
  | Consumer.ACOpen => 0x202
  | Consumer.ACClose => 0x203
  | Consumer.ACExit => 0x204
  | Consumer.ACMaximize => 0x205
  | Consumer.ACMinimize => 0x206
  | Consumer.ACSave => 0x207
  | Consumer.ACPrint => 0x208
  | Consumer.ACProperties => 0x209
  | Consumer.ACUndo => 0x21A
  | Consumer.ACCopy => 0x21B
  | Consumer.ACCut => 0x21C
  | Consumer.ACPaste => 0x21D
  | Consumer.ACSelectAll => 0x21E
  | Consumer.ACFind => 0x21F
  | Consumer.ACFindAndReplace => 0x220
  | Consumer.ACSearch => 0x221
  | Consumer.ACGoTo => 0x222
  | Consumer.ACHome => 0x223
  | Consumer.ACBack => 0x224
  | Consumer.ACForward => 0x225
  | Consumer.ACStop => 0x226
  | Consumer.ACRefresh => 0x227
  | Consumer.ACPreviousLink => 0x228
  | Consumer.ACNextLink => 0x229
  | Consumer.ACBookmarks => 0x22A
  | Consumer.ACHistory => 0x22B
  | Consumer.ACSubscriptions => 0x22C
  | Consumer.ACZoomIn => 0x22D
  | Consumer.ACZoomOut => 0x22E
  | Consumer.ACZoom => 0x22F
  | Consumer.ACFullScreenView => 0x230
  | Consumer.ACNormalView => 0x231
  | Consumer.ACViewToggle => 0x232
  | Consumer.ACScrollUp => 0x233
  | Consumer.ACScrollDown => 0x234
  | Consumer.ACScroll => 0x235
  | Consumer.ACPanLeft => 0x236
  | Consumer.ACPanRight => 0x237
  | Consumer.ACPan => 0x238
  | Consumer.ACNewWindow => 0x239
  | Consumer.ACTileHorizontally => 0x23A
  | Consumer.ACTileVertically => 0x23B
  | Consumer.ACFormat => 0x23C
  | Consumer.ACEdit => 0x23D
  | Consumer.ACBold => 0x23E
  | Consumer.ACItalics => 0x23F
  | Consumer.ACUnderline => 0x240
  | Consumer.ACStrikethrough => 0x241
  | Consumer.ACSubscript => 0x242
  | Consumer.ACSuperscript => 0x243
  | Consumer.ACAllCaps => 0x244
  | Consumer.ACRotate => 0x245
  | Consumer.ACResize => 0x246
  | Consumer.ACFlipHorizontal => 0x247
  | Consumer.ACFlipVertical => 0x248
  | Consumer.ACMirrorHorizontal => 0x249
  | Consumer.ACMirrorVertical => 0x24A
  | Consumer.ACFontSelect => 0x24B
  | Consumer.ACFontColor => 0x24C
  | Consumer.ACFontSize => 0x24D
  | Consumer.ACJustifyLeft => 0x24E
  | Consumer.ACJustifyCenterH => 0x24F
  | Consumer.ACJustifyRight => 0x250
  | Consumer.ACJustifyBlockH => 0x251
  | Consumer.ACJustifyTop => 0x252
  | Consumer.ACJustifyCenterV => 0x253
  | Consumer.ACJustifyBottom => 0x254
  | Consumer.ACJustifyBlockV => 0x255
  | Consumer.ACIndentDecrease => 0x256
  | Consumer.ACIndentIncrease => 0x257
  | Consumer.ACNumberedList => 0x258
  | Consumer.ACRestartNumbering => 0x259
  | Consumer.ACBulletedList => 0x25A
  | Consumer.ACPromote => 0x25B
  | Consumer.ACDemote => 0x25C
  | Consumer.ACYes => 0x25D
  | Consumer.ACNo => 0x25E
  | Consumer.ACCancel => 0x25F
  | Consumer.ACCatalog => 0x260
  | Consumer.ACBuyCheckout => 0x261
  | Consumer.ACAddToCart => 0x262
  | Consumer.ACExpand => 0x263
  | Consumer.ACExpandAll => 0x264
  | Consumer.ACCollapse => 0x265
  | Consumer.ACCollapseAll => 0x266
  | Consumer.ACPrintPreview => 0x267
  | Consumer.ACPasteSpecial => 0x268
  | Consumer.ACInsertMode => 0x269
  | Consumer.ACDelete => 0x26A
  | Consumer.ACLock => 0x26B
  | Consumer.ACUnlock => 0x26C
  | Consumer.ACProtect => 0x26D
  | Consumer.ACUnprotect => 0x26E
  | Consumer.ACAttachComment => 0x26F
  | Consumer.ACDeleteComment => 0x270
  | Consumer.ACViewComment => 0x271
  | Consumer.ACSelectWord => 0x272
  | Consumer.ACSelectSentence => 0x273
  | Consumer.ACSelectParagraph => 0x274
  | Consumer.ACSelectColumn => 0x275
  | Consumer.ACSelectRow => 0x276
  | Consumer.ACSelectTable => 0x277
  | Consumer.ACSelectObject => 0x278
  | Consumer.ACRedoRepeat => 0x279
  | Consumer.ACSort => 0x27A
  | Consumer.ACSortAscending => 0x27B
  | Consumer.ACSortDescending => 0x27C
  | Consumer.ACFilter => 0x27D
  | Consumer.ACSetClock => 0x27E
  | Consumer.ACViewClock => 0x27F
  | Consumer.ACSelectTimeZone => 0x280
  | Consumer.ACEditTimeZones => 0x281
  | Consumer.ACSetAlarm => 0x282
  | Consumer.ACClearAlarm => 0x283
  | Consumer.ACSnoozeAlarm => 0x284
  | Consumer.ACResetAlarm => 0x285
  | Consumer.ACSynchronize => 0x286
  | Consumer.ACSendReceive => 0x287
  | Consumer.ACSendTo => 0x288
  | Consumer.ACReply => 0x289
  | Consumer.ACReplyAll => 0x28A
  | Consumer.ACForwardMsg => 0x28B
  | Consumer.ACSend => 0x28C
  | Consumer.ACAttachFile => 0x28D
  | Consumer.ACUpload => 0x28E
  | Consumer.ACDownloadSaveTargetAs => 0x28F
  | Consumer.ACSetBorders => 0x290
  | Consumer.ACInsertRow => 0x291
  | Consumer.ACInsertColumn => 0x292
  | Consumer.ACInsertFile => 0x293
  | Consumer.ACInsertPicture => 0x294
  | Consumer.ACInsertObject => 0x295
  | Consumer.ACInsertSymbol => 0x296
  | Consumer.ACSaveAndClose => 0x297
  | Consumer.ACRename => 0x298
  | Consumer.ACMerge => 0x299
  | Consumer.ACSplit => 0x29A
  | Consumer.ACDistributeHorizontally => 0x29B
  | Consumer.ACDistributeVertically => 0x29C

/-- All variants of the `Consumer` enum in declaration order. -/
def variants : List Consumer := [
  Consumer.Unassigned, Consumer.ConsumerControl, Consumer.NumericKeyPad,
  Consumer.ProgrammableButtons, Consumer.Microphone, Consumer.Headphone,
  Consumer.GraphicEqualizer, Consumer.Plus10, Consumer.Plus100, Consumer.AmPm, Consumer.Power,
  Consumer.Reset, Consumer.Sleep, Consumer.SleepAfter, Consumer.SleepMode, Consumer.Illumination,
  Consumer.FunctionButtons, Consumer.Menu, Consumer.MenuPick, Consumer.MenuUp, Consumer.MenuDown,
  Consumer.MenuLeft, Consumer.MenuRight, Consumer.MenuEscape, Consumer.MenuValueIncrease,
  Consumer.MenuValueDecrease, Consumer.DataOnScreen, Consumer.ClosedCaption,
  Consumer.ClosedCaptionSelect, Consumer.VcrTv, Consumer.BroadcastMode, Consumer.Snapshot,
  Consumer.Still, Consumer.Selection, Consumer.AssignSelection, Consumer.ModeStep,
  Consumer.RecallLast, Consumer.EnterChannel, Consumer.OrderMovie, Consumer.Channel,
  Consumer.MediaSelection, Consumer.MediaSelectComputer, Consumer.MediaSelectTV,
  Consumer.MediaSelectWWW, Consumer.MediaSelectDVD, Consumer.MediaSelectTelephone,
  Consumer.MediaSelectProgramGuide, Consumer.MediaSelectVideoPhone, Consumer.MediaSelectGames,
  Consumer.MediaSelectMessages, Consumer.MediaSelectCD, Consumer.MediaSelectVCR,
  Consumer.MediaSelectTuner, Consumer.Quit, Consumer.Help, Consumer.MediaSelectTape,
  Consumer.MediaSelectCable, Consumer.MediaSelectSatellite, Consumer.MediaSelectSecurity,
  Consumer.MediaSelectHome, Consumer.MediaSelectCall, Consumer.ChannelIncrement,
  Consumer.ChannelDecrement, Consumer.MediaSelectSAP, Consumer.VCRPlus, Consumer.Once,
  Consumer.Daily, Consumer.Weekly, Consumer.Monthly, Consumer.Play, Consumer.Pause,
  Consumer.Record, Consumer.FastForward, Consumer.Rewind, Consumer.ScanNextTrack,
  Consumer.ScanPreviousTrack, Consumer.Stop, Consumer.Eject, Consumer.RandomPlay,
  Consumer.SelectDisc, Consumer.EnterDisc, Consumer.Repeat, Consumer.Tracking,
  Consumer.TrackNormal, Consumer.SlowTracking, Consumer.FrameForward, Consumer.FrameBack,
  Consumer.Mark, Consumer.ClearMark, Consumer.RepeatFromMark, Consumer.ReturnToMark,
  Consumer.SearchMarkForward, Consumer.SearchMarkBackwards, Consumer.CounterReset,
  Consumer.ShowCounter, Consumer.TrackingIncrement, Consumer.TrackingDecrement,
  Consumer.StopEject, Consumer.PlayPause, Consumer.PlaySkip, Consumer.Volume, Consumer.Balance,
  Consumer.Mute, Consumer.Bass, Consumer.Treble, Consumer.BassBoost, Consumer.SurroundMode,
  Consumer.Loudness, Consumer.MPX, Consumer.VolumeIncrement, Consumer.VolumeDecrement,
  Consumer.SpeedSelect, Consumer.PlaybackSpeed, Consumer.StandardPlay, Consumer.LongPlay,
  Consumer.ExtendedPlay, Consumer.Slow, Consumer.FanEnable, Consumer.FanSpeed,
  Consumer.LightEnable, Consumer.LightIlluminationLevel, Consumer.ClimateControlEnable,
  Consumer.RoomTemperature, Consumer.SecurityEnable, Consumer.FireAlarm, Consumer.PoliceAlarm,
  Consumer.Proximity, Consumer.Motion, Consumer.DuressAlarm, Consumer.HoldupAlarm,
  Consumer.MedicalAlarm, Consumer.BalanceRight, Consumer.BalanceLeft, Consumer.BassIncrement,
  Consumer.BassDecrement, Consumer.TrebleIncrement, Consumer.TrebleDecrement,
  Consumer.SpeakerSystem, Consumer.ChannelLeft, Consumer.ChannelRight, Consumer.ChannelCenter,
  Consumer.ChannelFront, Consumer.ChannelCenterFront, Consumer.ChannelSide,
  Consumer.ChannelSurround, Consumer.ChannelLowFrequencyEnhancement, Consumer.ChannelTop,
  Consumer.ChannelUnknown, Consumer.SubChannel, Consumer.SubChannelIncrement,
  Consumer.SubChannelDecrement, Consumer.AlternateAudioIncrement,
  Consumer.AlternateAudioDecrement, Consumer.ApplicationLaunchButtons,
  Consumer.ALLaunchButtonConfigurationTool, Consumer.ALProgrammableButtonConfiguration,
  Consumer.ALConsumerControlConfiguration, Consumer.ALWordProcessor, Consumer.ALTextEditor,
  Consumer.ALSpreadsheet, Consumer.ALGraphicsEditor, Consumer.ALPresentationApp,
  Consumer.ALDatabaseApp, Consumer.ALEmailReader, Consumer.ALNewsreader, Consumer.ALVoicemail,
  Consumer.ALContactsAddressBook, Consumer.ALCalendarSchedule, Consumer.ALTaskProjectManager,
  Consumer.ALLogJournalTimecard, Consumer.ALCheckbookFinance, Consumer.ALCalculator,
  Consumer.ALAvCapturePlayback, Consumer.ALLocalMachineBrowser, Consumer.ALLanWanBrowser,
  Consumer.ALInternetBrowser, Consumer.ALRemoteNetworkingISPConnect,
  Consumer.ALNetworkConference, Consumer.ALNetworkChat, Consumer.ALTelephonyDialer,
  Consumer.ALLogon, Consumer.ALLogoff, Consumer.ALLogonLogoff,
  Consumer.ALTerminalLockScreensaver, Consumer.ALControlPanel,
  Consumer.ALCommandLineProcessorRun, Consumer.ALProcessTaskManager,
  Consumer.ALSelectTaskApplication, Consumer.ALNextTaskApplication,
  Consumer.ALPreviousTaskApplication, Consumer.ALPreemptiveHaltTaskApplication,
  Consumer.ALIntegratedHelpCenter, Consumer.ALDocuments, Consumer.ALThesaurus,
  Consumer.ALDictionary, Consumer.ALDesktop, Consumer.ALSpellCheck, Consumer.ALGrammarCheck,
  Consumer.ALWirelessStatus, Consumer.ALKeyboardLayout, Consumer.ALVirusProtection,
  Consumer.ALEncryption, Consumer.ALScreenSaver, Consumer.ALAlarms, Consumer.ALClock,
  Consumer.ALFileBrowser, Consumer.ALPowerStatus, Consumer.ALImageBrowser,
  Consumer.ALAudioBrowser, Consumer.ALMovieBrowser, Consumer.ALDigitalRightsManager,
  Consumer.ALDigitalWallet, Consumer.ALInstantMessaging,
  Consumer.ALOemFeaturesTipsTutorialBrowser, Consumer.ALOemHelp, Consumer.ALOnlineCommunity,
  Consumer.ALEntertainmentContentBrowser, Consumer.ALOnlineShoppingBrowser,
  Consumer.ALSmartCardInformationHelp, Consumer.ALMarketMonitorFinanceBrowser,
  Consumer.ALCustomizedCorporateNewsBrowser, Consumer.ALOnlineActivityBrowser,
  Consumer.ALResearchSearchBrowser, Consumer.ALAudioPlayer,
  Consumer.GenericGUIApplicationControls, Consumer.ACNew, Consumer.ACOpen, Consumer.ACClose,
  Consumer.ACExit, Consumer.ACMaximize, Consumer.ACMinimize, Consumer.ACSave, Consumer.ACPrint,
  Consumer.ACProperties, Consumer.ACUndo, Consumer.ACCopy, Consumer.ACCut, Consumer.ACPaste,
  Consumer.ACSelectAll, Consumer.ACFind, Consumer.ACFindAndReplace, Consumer.ACSearch,
  Consumer.ACGoTo, Consumer.ACHome, Consumer.ACBack, Consumer.ACForward, Consumer.ACStop,
  Consumer.ACRefresh, Consumer.ACPreviousLink, Consumer.ACNextLink, Consumer.ACBookmarks,
  Consumer.ACHistory, Consumer.ACSubscriptions, Consumer.ACZoomIn, Consumer.ACZoomOut,
  Consumer.ACZoom, Consumer.ACFullScreenView, Consumer.ACNormalView, Consumer.ACViewToggle,
  Consumer.ACScrollUp, Consumer.ACScrollDown, Consumer.ACScroll, Consumer.ACPanLeft,
  Consumer.ACPanRight, Consumer.ACPan, Consumer.ACNewWindow, Consumer.ACTileHorizontally,
  Consumer.ACTileVertically, Consumer.ACFormat, Consumer.ACEdit, Consumer.ACBold,
  Consumer.ACItalics, Consumer.ACUnderline, Consumer.ACStrikethrough, Consumer.ACSubscript,
  Consumer.ACSuperscript, Consumer.ACAllCaps, Consumer.ACRotate, Consumer.ACResize,
  Consumer.ACFlipHorizontal, Consumer.ACFlipVertical, Consumer.ACMirrorHorizontal,
  Consumer.ACMirrorVertical, Consumer.ACFontSelect, Consumer.ACFontColor, Consumer.ACFontSize,
  Consumer.ACJustifyLeft, Consumer.ACJustifyCenterH, Consumer.ACJustifyRight,
  Consumer.ACJustifyBlockH, Consumer.ACJustifyTop, Consumer.ACJustifyCenterV,
  Consumer.ACJustifyBottom, Consumer.ACJustifyBlockV, Consumer.ACIndentDecrease,
  Consumer.ACIndentIncrease, Consumer.ACNumberedList, Consumer.ACRestartNumbering,
  Consumer.ACBulletedList, Consumer.ACPromote, Consumer.ACDemote, Consumer.ACYes, Consumer.ACNo,
  Consumer.ACCancel, Consumer.ACCatalog, Consumer.ACBuyCheckout, Consumer.ACAddToCart,
  Consumer.ACExpand, Consumer.ACExpandAll, Consumer.ACCollapse, Consumer.ACCollapseAll,
  Consumer.ACPrintPreview, Consumer.ACPasteSpecial, Consumer.ACInsertMode, Consumer.ACDelete,
  Consumer.ACLock, Consumer.ACUnlock, Consumer.ACProtect, Consumer.ACUnprotect,
  Consumer.ACAttachComment, Consumer.ACDeleteComment, Consumer.ACViewComment,
  Consumer.ACSelectWord, Consumer.ACSelectSentence, Consumer.ACSelectParagraph,
  Consumer.ACSelectColumn, Consumer.ACSelectRow, Consumer.ACSelectTable, Consumer.ACSelectObject,
  Consumer.ACRedoRepeat, Consumer.ACSort, Consumer.ACSortAscending, Consumer.ACSortDescending,
  Consumer.ACFilter, Consumer.ACSetClock, Consumer.ACViewClock, Consumer.ACSelectTimeZone,
  Consumer.ACEditTimeZones, Consumer.ACSetAlarm, Consumer.ACClearAlarm, Consumer.ACSnoozeAlarm,
  Consumer.ACResetAlarm, Consumer.ACSynchronize, Consumer.ACSendReceive, Consumer.ACSendTo,
  Consumer.ACReply, Consumer.ACReplyAll, Consumer.ACForwardMsg, Consumer.ACSend,
  Consumer.ACAttachFile, Consumer.ACUpload, Consumer.ACDownloadSaveTargetAs,
  Consumer.ACSetBorders, Consumer.ACInsertRow, Consumer.ACInsertColumn, Consumer.ACInsertFile,
  Consumer.ACInsertPicture, Consumer.ACInsertObject, Consumer.ACInsertSymbol,
  Consumer.ACSaveAndClose, Consumer.ACRename, Consumer.ACMerge, Consumer.ACSplit,
  Consumer.ACDistributeHorizontally, Consumer.ACDistributeVertically]

/-- The IntoPrimitive conversion of the `Consumer` enum: a fieldless enum converts
to its `u16` discriminant value. -/
def toCode (v : Consumer) : Nat := code v

/-- The Default impl for `Consumer` in src/lib/src/page.rs returns `Unassigned`. -/
def default : Consumer := Consumer.Unassigned

/-- The num_enum FromPrimitive conversion for `Consumer`: the generated match tries
each declared discriminant and falls back to the variant marked num_enum default
(`Unassigned`, which is also the Default value) on any other input. -/
def fromCode (c : Nat) : Consumer :=
  (variants.find? (fun v => code v == c)).getD default

/-- The derived Ord for the `Consumer` enum: Rust orders fieldless enum values by
comparing their discriminant values. -/
def cmp (a b : Consumer) : Ordering := compare (code a) (code b)

/-- The strict order given by the derived PartialOrd/Ord of `Consumer`. -/
def lt (a b : Consumer) : Prop := cmp a b = Ordering.lt

/-- The hash32 Hash impl for `Consumer` in src/lib/src/page.rs: it converts the value
to its u16 code and writes the little-endian bytes of that code to the hasher;
this list is the byte sequence the hasher consumes. -/
def hashBytes (v : Consumer) : List Nat := u16ToLeBytes (code v)

/-- The named (non-fallback) variants of `Consumer`: every variant except the
fallback `Unassigned`, which is declared first. -/
def namedVariants : List Consumer := variants.drop 1

/-- The codes assigned to named variants of `Consumer`. -/
def namedCodes : List Nat := namedVariants.map code

/-- All assigned codes of `Consumer`, the fallback code 0 included. -/
def assignedCodes : List Nat := variants.map code

end Consumer

/-- The `Desktop` usage page enum of src/lib/src/page.rs (Section 4 Desktop Page (0x01)), a
fieldless Rust enum with `repr(u8)` and one explicit discriminant per variant;
the first variant `Undefined` carries the num_enum default attribute. -/
inductive Desktop where
  | Undefined
  | Pointer
  | Mouse
  | Joystick
  | GamePad
  | Keyboard
  | Keypad
  | MultiAxisController
  | TabletPcSystemControls
  | X
  | Y
  | Z
  | Rx
  | Ry
  | Rz
  | Slider
  | Dial
  | Wheel
  | HatSwitch
  | CountedBuffer
  | ByteCount
  | MotionWakeup
  | Start
  | Select
  | Vx
  | Vy
  | Vz
  | Vbrx
  | Vbry
  | Vbrz
  | Vno
  | FeatureNotification
  | ResolutionMultiplier
  | SystemControl
  | SystemPowerDown
  | SystemSleep
  | SystemWakeUp
  | SystemContextMenu
  | SystemMainMenu
  | SystemAppMenu
  | SystemHelpMenu
  | SystemMenuExit
  | SystemMenuSelect
  | SystemMenuRight
  | SystemMenuLeft
  | SystemMenuUp
  | SystemMenuDown
  | SystemColdRestart
  | SystemWarmRestart
  | DPadUp
  | DPadDown
  | DPadRight
  | DPadLeft
deriving DecidableEq

namespace Desktop

/-- The explicit discriminant of each variant of `Desktop`, exactly as declared in
src/lib/src/page.rs; this is the numeric value that IntoPrimitive, FromPrimitive
and the derived Ord all read. -/
def code : Desktop → Nat
  | Desktop.Undefined => 0x00
  | Desktop.Pointer => 0x01
  | Desktop.Mouse => 0x02
  | Desktop.Joystick => 0x04
  | Desktop.GamePad => 0x05
  | Desktop.Keyboard => 0x06
  | Desktop.Keypad => 0x07
  | Desktop.MultiAxisController => 0x08
  | Desktop.TabletPcSystemControls => 0x09
  | Desktop.X => 0x30
  | Desktop.Y => 0x31
  | Desktop.Z => 0x32
  | Desktop.Rx => 0x33
  | Desktop.Ry => 0x34
  | Desktop.Rz => 0x35
  | Desktop.Slider => 0x36
  | Desktop.Dial => 0x37
  | Desktop.Wheel => 0x38
  | Desktop.HatSwitch => 0x39
  | Desktop.CountedBuffer => 0x3A
  | Desktop.ByteCount => 0x3B
  | Desktop.MotionWakeup => 0x3C
  | Desktop.Start => 0x3D
  | Desktop.Select => 0x3E
  | Desktop.Vx => 0x40
  | Desktop.Vy => 0x41
  | Desktop.Vz => 0x42
  | Desktop.Vbrx => 0x43
  | Desktop.Vbry => 0x44
  | Desktop.Vbrz => 0x45
  | Desktop.Vno => 0x46
  | Desktop.FeatureNotification => 0x47
  | Desktop.ResolutionMultiplier => 0x48
  | Desktop.SystemControl => 0x80
  | Desktop.SystemPowerDown => 0x81
  | Desktop.SystemSleep => 0x82
  | Desktop.SystemWakeUp => 0x83
  | Desktop.SystemContextMenu => 0x84
  | Desktop.SystemMainMenu => 0x85
  | Desktop.SystemAppMenu => 0x86
  | Desktop.SystemHelpMenu => 0x87
  | Desktop.SystemMenuExit => 0x88
  | Desktop.SystemMenuSelect => 0x89
  | Desktop.SystemMenuRight => 0x8A
  | Desktop.SystemMenuLeft => 0x8B
  | Desktop.SystemMenuUp => 0x8C
  | Desktop.SystemMenuDown => 0x8D
  | Desktop.SystemColdRestart => 0x8E
  | Desktop.SystemWarmRestart => 0x8F
  | Desktop.DPadUp => 0x90
  | Desktop.DPadDown => 0x91
  | Desktop.DPadRight => 0x92
  | Desktop.DPadLeft => 0x93

/-- All variants of the `Desktop` enum in declaration order. -/
def variants : List Desktop := [
  Desktop.Undefined, Desktop.Pointer, Desktop.Mouse, Desktop.Joystick, Desktop.GamePad,
  Desktop.Keyboard, Desktop.Keypad, Desktop.MultiAxisController, Desktop.TabletPcSystemControls,
  Desktop.X, Desktop.Y, Desktop.Z, Desktop.Rx, Desktop.Ry, Desktop.Rz, Desktop.Slider,
  Desktop.Dial, Desktop.Wheel, Desktop.HatSwitch, Desktop.CountedBuffer, Desktop.ByteCount,
  Desktop.MotionWakeup, Desktop.Start, Desktop.Select, Desktop.Vx, Desktop.Vy, Desktop.Vz,
  Desktop.Vbrx, Desktop.Vbry, Desktop.Vbrz, Desktop.Vno, Desktop.FeatureNotification,
  Desktop.ResolutionMultiplier, Desktop.SystemControl, Desktop.SystemPowerDown,
  Desktop.SystemSleep, Desktop.SystemWakeUp, Desktop.SystemContextMenu, Desktop.SystemMainMenu,
  Desktop.SystemAppMenu, Desktop.SystemHelpMenu, Desktop.SystemMenuExit,
  Desktop.SystemMenuSelect, Desktop.SystemMenuRight, Desktop.SystemMenuLeft,
  Desktop.SystemMenuUp, Desktop.SystemMenuDown, Desktop.SystemColdRestart,
  Desktop.SystemWarmRestart, Desktop.DPadUp, Desktop.DPadDown, Desktop.DPadRight,
  Desktop.DPadLeft]

/-- The IntoPrimitive conversion of the `Desktop` enum: a fieldless enum converts
to its `u8` discriminant value. -/
def toCode (v : Desktop) : Nat := code v

/-- The Default impl for `Desktop` in src/lib/src/page.rs returns `Undefined`. -/
def default : Desktop := Desktop.Undefined

/-- The num_enum FromPrimitive conversion for `Desktop`: the generated match tries
each declared discriminant and falls back to the variant marked num_enum default
(`Undefined`, which is also the Default value) on any other input. -/
def fromCode (c : Nat) : Desktop :=
  (variants.find? (fun v => code v == c)).getD default

/-- The derived Ord for the `Desktop` enum: Rust orders fieldless enum values by
comparing their discriminant values. -/
def cmp (a b : Desktop) : Ordering := compare (code a) (code b)

/-- The strict order given by the derived PartialOrd/Ord of `Desktop`. -/
def lt (a b : Desktop) : Prop := cmp a b = Ordering.lt

/-- The hash32 Hash impl for `Desktop` in src/lib/src/page.rs: it converts the value
to its u8 code and writes the little-endian bytes of that code to the hasher;
this list is the byte sequence the hasher consumes. -/
def hashBytes (v : Desktop) : List Nat := u8ToLeBytes (code v)

/-- The named (non-fallback) variants of `Desktop`: every variant except the
fallback `Undefined`, which is declared first. -/
def namedVariants : List Desktop := variants.drop 1

/-- The codes assigned to named variants of `Desktop`. -/
def namedCodes : List Nat := namedVariants.map code

/-- All assigned codes of `Desktop`, the fallback code 0 included. -/
def assignedCodes : List Nat := variants.map code

end Desktop

/-- The `Game` usage page enum of src/lib/src/page.rs (Section 4 Game Controls Page (0x05)), a
fieldless Rust enum with `repr(u8)` and one explicit discriminant per variant;
the first variant `Undefined` carries the num_enum default attribute. -/
inductive Game where
  | Undefined
  | Game3DController
  | PinballDevice
  | GunDevice
  | PointOfView
  | TurnRightLeft
  | PitchRightLeft
  | RollForwardBackward
  | MoveRightLeft
  | MoveForwardBackward
  | MoveUpDown
  | LeanRightLeft
  | LeanForwardBackward
  | HeightOfPOV
  | Flipper
  | SecondaryFlipper
  | Bump
  | NewGame
  | ShootBall
  | Player
  | GunBolt
  | GunClip
  | GunSelector
  | GunSingleShot
  | GunBurst
  | GunAutomatic
  | GunSafety
  | GamePadFireJump
  | GamePadTrigger
deriving DecidableEq

namespace Game

/-- The explicit discriminant of each variant of `Game`, exactly as declared in
src/lib/src/page.rs; this is the numeric value that IntoPrimitive, FromPrimitive
and the derived Ord all read. -/
def code : Game → Nat
  | Game.Undefined => 0x00
  | Game.Game3DController => 0x01
  | Game.PinballDevice => 0x02
  | Game.GunDevice => 0x03
  | Game.PointOfView => 0x20
  | Game.TurnRightLeft => 0x21
  | Game.PitchRightLeft => 0x22
  | Game.RollForwardBackward => 0x23
  | Game.MoveRightLeft => 0x24
  | Game.MoveForwardBackward => 0x25
  | Game.MoveUpDown => 0x26
  | Game.LeanRightLeft => 0x27
  | Game.LeanForwardBackward => 0x28
  | Game.HeightOfPOV => 0x29
  | Game.Flipper => 0x2A
  | Game.SecondaryFlipper => 0x2B
  | Game.Bump => 0x2C
  | Game.NewGame => 0x2D
  | Game.ShootBall => 0x2E
  | Game.Player => 0x2F
  | Game.GunBolt => 0x30
  | Game.GunClip => 0x31
  | Game.GunSelector => 0x32
  | Game.GunSingleShot => 0x33
  | Game.GunBurst => 0x34
  | Game.GunAutomatic => 0x35
  | Game.GunSafety => 0x36
  | Game.GamePadFireJump => 0x37
  | Game.GamePadTrigger => 0x39

/-- All variants of the `Game` enum in declaration order. -/
def variants : List Game := [
  Game.Undefined, Game.Game3DController, Game.PinballDevice, Game.GunDevice, Game.PointOfView,
  Game.TurnRightLeft, Game.PitchRightLeft, Game.RollForwardBackward, Game.MoveRightLeft,
  Game.MoveForwardBackward, Game.MoveUpDown, Game.LeanRightLeft, Game.LeanForwardBackward,
  Game.HeightOfPOV, Game.Flipper, Game.SecondaryFlipper, Game.Bump, Game.NewGame, Game.ShootBall,
  Game.Player, Game.GunBolt, Game.GunClip, Game.GunSelector, Game.GunSingleShot, Game.GunBurst,
  Game.GunAutomatic, Game.GunSafety, Game.GamePadFireJump, Game.GamePadTrigger]

/-- The IntoPrimitive conversion of the `Game` enum: a fieldless enum converts
to its `u8` discriminant value. -/
def toCode (v : Game) : Nat := code v

/-- The Default impl for `Game` in src/lib/src/page.rs returns `Undefined`. -/
def default : Game := Game.Undefined

/-- The num_enum FromPrimitive conversion for `Game`: the generated match tries
each declared discriminant and falls back to the variant marked num_enum default
(`Undefined`, which is also the Default value) on any other input. -/
def fromCode (c : Nat) : Game :=
  (variants.find? (fun v => code v == c)).getD default

/-- The derived Ord for the `Game` enum: Rust orders fieldless enum values by
comparing their discriminant values. -/
def cmp (a b : Game) : Ordering := compare (code a) (code b)

/-- The strict order given by the derived PartialOrd/Ord of `Game`. -/
def lt (a b : Game) : Prop := cmp a b = Ordering.lt

/-- The hash32 Hash impl for `Game` in src/lib/src/page.rs: it converts the value
to its u8 code and writes the little-endian bytes of that code to the hasher;
this list is the byte sequence the hasher consumes. -/
def hashBytes (v : Game) : List Nat := u8ToLeBytes (code v)

/-- The named (non-fallback) variants of `Game`: every variant except the
fallback `Undefined`, which is declared first. -/
def namedVariants : List Game := variants.drop 1

/-- The codes assigned to named variants of `Game`. -/
def namedCodes : List Nat := namedVariants.map code

/-- All assigned codes of `Game`, the fallback code 0 included. -/
def assignedCodes : List Nat := variants.map code

end Game

/-- The `Keyboard` usage page enum of src/lib/src/page.rs (Section 10 Keyboard/Keypad Page (0x04)), a
fieldless Rust enum with `repr(u8)` and one explicit discriminant per variant;
the first variant `NoEventIndicated` carries the num_enum default attribute. -/
inductive Keyboard where
  | NoEventIndicated
  | ErrorRollOver
  | POSTFail
  | ErrorUndefine
  | A
  | B
  | C
  | D
  | E
  | F
  | G
  | H
  | I
  | J
  | K
  | L
  | M
  | N
  | O
  | P
  | Q
  | R
  | S
  | T
  | U
  | V
  | W
  | X
  | Y
  | Z
  | Keyboard1
  | Keyboard2
  | Keyboard3
  | Keyboard4
  | Keyboard5
  | Keyboard6
  | Keyboard7
  | Keyboard8
  | Keyboard9
  | Keyboard0
  | ReturnEnter
  | Escape
  | DeleteBackspace
  | Tab
  | Space
  | Minus
  | Equal
  | LeftBrace
  | RightBrace
  | Backslash
  | NonUSHash
  | Semicolon
  | Apostrophe
  | Grave
  | Comma
  | Dot
  | ForwardSlash
  | CapsLock
  | F1
  | F2
  | F3
  | F4
  | F5
  | F6
  | F7
  | F8
  | F9
  | F10
  | F11
  | F12
  | PrintScreen
  | ScrollLock
  | Pause
  | Insert
  | Home
  | PageUp
  | DeleteForward
  | End
  | PageDown
  | RightArrow
  | LeftArrow
  | DownArrow
  | UpArrow
  | KeypadNumLockAndClear
  | KeypadDivide
  | KeypadMultiply
  | KeypadSubtract
  | KeypadAdd
  | KeypadEnter
  | Keypad1
  | Keypad2
  | Keypad3
  | Keypad4
  | Keypad5
  | Keypad6
  | Keypad7
  | Keypad8
  | Keypad9
  | Keypad0
  | KeypadDot
  | NonUSBackslash
  | Application
  | Power
  | KeypadEqual
  | F13
  | F14
  | F15
  | F16
  | F17
  | F18
  | F19
  | F20
  | F21
  | F22
  | F23
  | F24
  | Execute
  | Help
  | Menu
  | Select
  | Stop
  | Again
  | Undo
  | Cut
  | Copy
  | Paste
  | Find
  | Mute
  | VolumeUp
  | VolumeDown
  | LockingCapsLock
  | LockingNumLock
  | LockingScrollLock
  | KeypadComma
  | KeypadEqualSign
  | Kanji1
  | Kanji2
  | Kanji3
  | Kanji4
  | Kanji5
  | Kanji6
  | Kanji7
  | Kanji8
  | Kanji9
  | LANG1
  | LANG2
  | LANG3
  | LANG4
  | LANG5
  | LANG6
  | LANG7
  | LANG8
  | LANG9
  | AlternateErase
  | SysReqAttention
  | Cancel
  | Clear
  | Prior
  | Return
  | Separator
  | Out
  | Oper
  | ClearAgain
  | CrSelProps
  | ExSel
  | LeftControl
  | LeftShift
  | LeftAlt
  | LeftGUI
  | RightControl
  | RightShift
  | RightAlt
  | RightGUI
deriving DecidableEq

namespace Keyboard

/-- The explicit discriminant of each variant of `Keyboard`, exactly as declared in
src/lib/src/page.rs; this is the numeric value that IntoPrimitive, FromPrimitive
and the derived Ord all read. -/
def code : Keyboard → Nat
  | Keyboard.NoEventIndicated => 0x00
  | Keyboard.ErrorRollOver => 0x01
  | Keyboard.POSTFail => 0x02
  | Keyboard.ErrorUndefine => 0x03
  | Keyboard.A => 0x04
  | Keyboard.B => 0x05
  | Keyboard.C => 0x06
  | Keyboard.D => 0x07
  | Keyboard.E => 0x08
  | Keyboard.F => 0x09
  | Keyboard.G => 0x0A
  | Keyboard.H => 0x0B
  | Keyboard.I => 0x0C
  | Keyboard.J => 0x0D
  | Keyboard.K => 0x0E
  | Keyboard.L => 0x0F
  | Keyboard.M => 0x10
  | Keyboard.N => 0x11
  | Keyboard.O => 0x12
  | Keyboard.P => 0x13
  | Keyboard.Q => 0x14
  | Keyboard.R => 0x15
  | Keyboard.S => 0x16
  | Keyboard.T => 0x17
  | Keyboard.U => 0x18
  | Keyboard.V => 0x19
  | Keyboard.W => 0x1A
  | Keyboard.X => 0x1B
  | Keyboard.Y => 0x1C
  | Keyboard.Z => 0x1D
  | Keyboard.Keyboard1 => 0x1E
  | Keyboard.Keyboard2 => 0x1F
  | Keyboard.Keyboard3 => 0x20
  | Keyboard.Keyboard4 => 0x21
  | Keyboard.Keyboard5 => 0x22
  | Keyboard.Keyboard6 => 0x23
  | Keyboard.Keyboard7 => 0x24
  | Keyboard.Keyboard8 => 0x25
  | Keyboard.Keyboard9 => 0x26
  | Keyboard.Keyboard0 => 0x27
  | Keyboard.ReturnEnter => 0x28
  | Keyboard.Escape => 0x29
  | Keyboard.DeleteBackspace => 0x2A
  | Keyboard.Tab => 0x2B
  | Keyboard.Space => 0x2C
  | Keyboard.Minus => 0x2D
  | Keyboard.Equal => 0x2E
  | Keyboard.LeftBrace => 0x2F
  | Keyboard.RightBrace => 0x30
  | Keyboard.Backslash => 0x31
  | Keyboard.NonUSHash => 0x32
  | Keyboard.Semicolon => 0x33
  | Keyboard.Apostrophe => 0x34
  | Keyboard.Grave => 0x35
  | Keyboard.Comma => 0x36
  | Keyboard.Dot => 0x37
  | Keyboard.ForwardSlash => 0x38
  | Keyboard.CapsLock => 0x39
  | Keyboard.F1 => 0x3A
  | Keyboard.F2 => 0x3B
  | Keyboard.F3 => 0x3C
  | Keyboard.F4 => 0x3D
  | Keyboard.F5 => 0x3E
  | Keyboard.F6 => 0x3F
  | Keyboard.F7 => 0x40
  | Keyboard.F8 => 0x41
  | Keyboard.F9 => 0x42
  | Keyboard.F10 => 0x43
  | Keyboard.F11 => 0x44
  | Keyboard.F12 => 0x45
  | Keyboard.PrintScreen => 0x46
  | Keyboard.ScrollLock => 0x47
  | Keyboard.Pause => 0x48
  | Keyboard.Insert => 0x49
  | Keyboard.Home => 0x4A
  | Keyboard.PageUp => 0x4B
  | Keyboard.DeleteForward => 0x4C
  | Keyboard.End => 0x4D
  | Keyboard.PageDown => 0x4E
  | Keyboard.RightArrow => 0x4F
  | Keyboard.LeftArrow => 0x50
  | Keyboard.DownArrow => 0x51
  | Keyboard.UpArrow => 0x52
  | Keyboard.KeypadNumLockAndClear => 0x53
  | Keyboard.KeypadDivide => 0x54
  | Keyboard.KeypadMultiply => 0x55
  | Keyboard.KeypadSubtract => 0x56
  | Keyboard.KeypadAdd => 0x57
  | Keyboard.KeypadEnter => 0x58
  | Keyboard.Keypad1 => 0x59
  | Keyboard.Keypad2 => 0x5A
  | Keyboard.Keypad3 => 0x5B
  | Keyboard.Keypad4 => 0x5C
  | Keyboard.Keypad5 => 0x5D
  | Keyboard.Keypad6 => 0x5E
  | Keyboard.Keypad7 => 0x5F
  | Keyboard.Keypad8 => 0x60
  | Keyboard.Keypad9 => 0x61
  | Keyboard.Keypad0 => 0x62
  | Keyboard.KeypadDot => 0x63
  | Keyboard.NonUSBackslash => 0x64
  | Keyboard.Application => 0x65
  | Keyboard.Power => 0x66
  | Keyboard.KeypadEqual => 0x67
  | Keyboard.F13 => 0x68
  | Keyboard.F14 => 0x69
  | Keyboard.F15 => 0x6A
  | Keyboard.F16 => 0x6B
  | Keyboard.F17 => 0x6C
  | Keyboard.F18 => 0x6D
  | Keyboard.F19 => 0x6E
  | Keyboard.F20 => 0x6F
  | Keyboard.F21 => 0x70
  | Keyboard.F22 => 0x71
  | Keyboard.F23 => 0x72
  | Keyboard.F24 => 0x73
  | Keyboard.Execute => 0x74
  | Keyboard.Help => 0x75
  | Keyboard.Menu => 0x76
  | Keyboard.Select => 0x77
  | Keyboard.Stop => 0x78
  | Keyboard.Again => 0x79
  | Keyboard.Undo => 0x7A
  | Keyboard.Cut => 0x7B
  | Keyboard.Copy => 0x7C
  | Keyboard.Paste => 0x7D
  | Keyboard.Find => 0x7E
  | Keyboard.Mute => 0x7F
  | Keyboard.VolumeUp => 0x80
  | Keyboard.VolumeDown => 0x81
  | Keyboard.LockingCapsLock => 0x82
  | Keyboard.LockingNumLock => 0x83
  | Keyboard.LockingScrollLock => 0x84
  | Keyboard.KeypadComma => 0x85
  | Keyboard.KeypadEqualSign => 0x86
  | Keyboard.Kanji1 => 0x87
  | Keyboard.Kanji2 => 0x88
  | Keyboard.Kanji3 => 0x89
  | Keyboard.Kanji4 => 0x8A
  | Keyboard.Kanji5 => 0x8B
  | Keyboard.Kanji6 => 0x8C
  | Keyboard.Kanji7 => 0x8D
  | Keyboard.Kanji8 => 0x8E
  | Keyboard.Kanji9 => 0x8F
  | Keyboard.LANG1 => 0x90
  | Keyboard.LANG2 => 0x91
  | Keyboard.LANG3 => 0x92
  | Keyboard.LANG4 => 0x93
  | Keyboard.LANG5 => 0x94
  | Keyboard.LANG6 => 0x95
  | Keyboard.LANG7 => 0x96
  | Keyboard.LANG8 => 0x97
  | Keyboard.LANG9 => 0x98
  | Keyboard.AlternateErase => 0x99
  | Keyboard.SysReqAttention => 0x9A
  | Keyboard.Cancel => 0x9B
  | Keyboard.Clear => 0x9C
  | Keyboard.Prior => 0x9D
  | Keyboard.Return => 0x9E
  | Keyboard.Separator => 0x9F
  | Keyboard.Out => 0xA0
  | Keyboard.Oper => 0xA1
  | Keyboard.ClearAgain => 0xA2
  | Keyboard.CrSelProps => 0xA3
  | Keyboard.ExSel => 0xA4
  | Keyboard.LeftControl => 0xE0
  | Keyboard.LeftShift => 0xE1
  | Keyboard.LeftAlt => 0xE2
  | Keyboard.LeftGUI => 0xE3
  | Keyboard.RightControl => 0xE4
  | Keyboard.RightShift => 0xE5
  | Keyboard.RightAlt => 0xE6
  | Keyboard.RightGUI => 0xE7

/-- All variants of the `Keyboard` enum in declaration order. -/
def variants : List Keyboard := [
  Keyboard.NoEventIndicated, Keyboard.ErrorRollOver, Keyboard.POSTFail, Keyboard.ErrorUndefine,
  Keyboard.A, Keyboard.B, Keyboard.C, Keyboard.D, Keyboard.E, Keyboard.F, Keyboard.G, Keyboard.H,
  Keyboard.I, Keyboard.J, Keyboard.K, Keyboard.L, Keyboard.M, Keyboard.N, Keyboard.O, Keyboard.P,
  Keyboard.Q, Keyboard.R, Keyboard.S, Keyboard.T, Keyboard.U, Keyboard.V, Keyboard.W, Keyboard.X,
  Keyboard.Y, Keyboard.Z, Keyboard.Keyboard1, Keyboard.Keyboard2, Keyboard.Keyboard3,
  Keyboard.Keyboard4, Keyboard.Keyboard5, Keyboard.Keyboard6, Keyboard.Keyboard7,
  Keyboard.Keyboard8, Keyboard.Keyboard9, Keyboard.Keyboard0, Keyboard.ReturnEnter,
  Keyboard.Escape, Keyboard.DeleteBackspace, Keyboard.Tab, Keyboard.Space, Keyboard.Minus,
  Keyboard.Equal, Keyboard.LeftBrace, Keyboard.RightBrace, Keyboard.Backslash,
  Keyboard.NonUSHash, Keyboard.Semicolon, Keyboard.Apostrophe, Keyboard.Grave, Keyboard.Comma,
  Keyboard.Dot, Keyboard.ForwardSlash, Keyboard.CapsLock, Keyboard.F1, Keyboard.F2, Keyboard.F3,
  Keyboard.F4, Keyboard.F5, Keyboard.F6, Keyboard.F7, Keyboard.F8, Keyboard.F9, Keyboard.F10,
  Keyboard.F11, Keyboard.F12, Keyboard.PrintScreen, Keyboard.ScrollLock, Keyboard.Pause,
  Keyboard.Insert, Keyboard.Home, Keyboard.PageUp, Keyboard.DeleteForward, Keyboard.End,
  Keyboard.PageDown, Keyboard.RightArrow, Keyboard.LeftArrow, Keyboard.DownArrow,
  Keyboard.UpArrow, Keyboard.KeypadNumLockAndClear, Keyboard.KeypadDivide,
  Keyboard.KeypadMultiply, Keyboard.KeypadSubtract, Keyboard.KeypadAdd, Keyboard.KeypadEnter,
  Keyboard.Keypad1, Keyboard.Keypad2, Keyboard.Keypad3, Keyboard.Keypad4, Keyboard.Keypad5,
  Keyboard.Keypad6, Keyboard.Keypad7, Keyboard.Keypad8, Keyboard.Keypad9, Keyboard.Keypad0,
  Keyboard.KeypadDot, Keyboard.NonUSBackslash, Keyboard.Application, Keyboard.Power,
  Keyboard.KeypadEqual, Keyboard.F13, Keyboard.F14, Keyboard.F15, Keyboard.F16, Keyboard.F17,
  Keyboard.F18, Keyboard.F19, Keyboard.F20, Keyboard.F21, Keyboard.F22, Keyboard.F23,
  Keyboard.F24, Keyboard.Execute, Keyboard.Help, Keyboard.Menu, Keyboard.Select, Keyboard.Stop,
  Keyboard.Again, Keyboard.Undo, Keyboard.Cut, Keyboard.Copy, Keyboard.Paste, Keyboard.Find,
  Keyboard.Mute, Keyboard.VolumeUp, Keyboard.VolumeDown, Keyboard.LockingCapsLock,
  Keyboard.LockingNumLock, Keyboard.LockingScrollLock, Keyboard.KeypadComma,
  Keyboard.KeypadEqualSign, Keyboard.Kanji1, Keyboard.Kanji2, Keyboard.Kanji3, Keyboard.Kanji4,
  Keyboard.Kanji5, Keyboard.Kanji6, Keyboard.Kanji7, Keyboard.Kanji8, Keyboard.Kanji9,
  Keyboard.LANG1, Keyboard.LANG2, Keyboard.LANG3, Keyboard.LANG4, Keyboard.LANG5, Keyboard.LANG6,
  Keyboard.LANG7, Keyboard.LANG8, Keyboard.LANG9, Keyboard.AlternateErase,
  Keyboard.SysReqAttention, Keyboard.Cancel, Keyboard.Clear, Keyboard.Prior, Keyboard.Return,
  Keyboard.Separator, Keyboard.Out, Keyboard.Oper, Keyboard.ClearAgain, Keyboard.CrSelProps,
  Keyboard.ExSel, Keyboard.LeftControl, Keyboard.LeftShift, Keyboard.LeftAlt, Keyboard.LeftGUI,
  Keyboard.RightControl, Keyboard.RightShift, Keyboard.RightAlt, Keyboard.RightGUI]

/-- The IntoPrimitive conversion of the `Keyboard` enum: a fieldless enum converts
to its `u8` discriminant value. -/
def toCode (v : Keyboard) : Nat := code v

/-- The Default impl for `Keyboard` in src/lib/src/page.rs returns `NoEventIndicated`. -/
def default : Keyboard := Keyboard.NoEventIndicated

/-- The num_enum FromPrimitive conversion for `Keyboard`: the generated match tries
each declared discriminant and falls back to the variant marked num_enum default
(`NoEventIndicated`, which is also the Default value) on any other input. -/
def fromCode (c : Nat) : Keyboard :=
  (variants.find? (fun v => code v == c)).getD default

/-- The derived Ord for the `Keyboard` enum: Rust orders fieldless enum values by
comparing their discriminant values. -/
def cmp (a b : Keyboard) : Ordering := compare (code a) (code b)

/-- The strict order given by the derived PartialOrd/Ord of `Keyboard`. -/
def lt (a b : Keyboard) : Prop := cmp a b = Ordering.lt

/-- The hash32 Hash impl for `Keyboard` in src/lib/src/page.rs: it converts the value
to its u8 code and writes the little-endian bytes of that code to the hasher;
this list is the byte sequence the hasher consumes. -/
def hashBytes (v : Keyboard) : List Nat := u8ToLeBytes (code v)

/-- The named (non-fallback) variants of `Keyboard`: every variant except the
fallback `NoEventIndicated`, which is declared first. -/
def namedVariants : List Keyboard := variants.drop 1

/-- The codes assigned to named variants of `Keyboard`. -/
def namedCodes : List Nat := namedVariants.map code

/-- All assigned codes of `Keyboard`, the fallback code 0 included. -/
def assignedCodes : List Nat := variants.map code

end Keyboard

/-- The `Simulation` usage page enum of src/lib/src/page.rs (Section 5 Simulation Controls Page (0x02)), a
fieldless Rust enum with `repr(u8)` and one explicit discriminant per variant;
the first variant `Undefined` carries the num_enum default attribute. -/
inductive Simulation where
  | Undefined
  | FlightSimulationDevice
  | AutomobileSimulationDevice
  | TankSimulationDevice
  | SpaceshipSimulationDevice
  | SubmarineSimulationDevice
  | SailingSimulationDevice
  | MotorcycleSimulationDevice
  | SportsSimulationDevice
  | AirplaneSimulationDevice
  | HelicopterSimulationDevice
  | MagicCarpetSimulationDevice
  | Bicycle
  | FlightControlStick
  | FlightStick
  | CyclicControl
  | CyclicTrim
  | FlightYoke
  | TrackControl
  | DrivingControl
  | Aileron
  | AileronTrim
  | AntiTorqueControl
  | AutoPilotEnable
  | ChaffRelease
  | CollectiveControl
  | DiveBrake
  | ElectronicCounterMeasures
  | Elevator
  | ElevatorTrim
  | Rudder
  | Throttle
  | FlightCommunication
  | FlareRelease
  | LandingGear
  | ToeBrake
  | Trigger
  | WeaponsArm
  | WeaponsSelect
  | WingFlaps
  | Accelerator
  | Brake
  | Clutch
  | Shifter
  | Steering
  | TurretDirection
  | BarrelElevation
  | DivePlane
  | Ballast
  | BicycleCrank
  | HandleBars
  | FrontBrake
  | RearBrake
deriving DecidableEq

namespace Simulation

/-- The explicit discriminant of each variant of `Simulation`, exactly as declared in
src/lib/src/page.rs; this is the numeric value that IntoPrimitive, FromPrimitive
and the derived Ord all read. -/
def code : Simulation → Nat
  | Simulation.Undefined => 0x00
  | Simulation.FlightSimulationDevice => 0x01
  | Simulation.AutomobileSimulationDevice => 0x02
  | Simulation.TankSimulationDevice => 0x03
  | Simulation.SpaceshipSimulationDevice => 0x04
  | Simulation.SubmarineSimulationDevice => 0x05
  | Simulation.SailingSimulationDevice => 0x06
  | Simulation.MotorcycleSimulationDevice => 0x07
  | Simulation.SportsSimulationDevice => 0x08
  | Simulation.AirplaneSimulationDevice => 0x09
  | Simulation.HelicopterSimulationDevice => 0x0A
  | Simulation.MagicCarpetSimulationDevice => 0x0B
  | Simulation.Bicycle => 0x0C
  | Simulation.FlightControlStick => 0x20
  | Simulation.FlightStick => 0x21
  | Simulation.CyclicControl => 0x22
  | Simulation.CyclicTrim => 0x23
  | Simulation.FlightYoke => 0x24
  | Simulation.TrackControl => 0x25
  | Simulation.DrivingControl => 0x26
  | Simulation.Aileron => 0xB0
  | Simulation.AileronTrim => 0xB1
  | Simulation.AntiTorqueControl => 0xB2
  | Simulation.AutoPilotEnable => 0xB3
  | Simulation.ChaffRelease => 0xB4
  | Simulation.CollectiveControl => 0xB5
  | Simulation.DiveBrake => 0xB6
  | Simulation.ElectronicCounterMeasures => 0xB7
  | Simulation.Elevator => 0xB8
  | Simulation.ElevatorTrim => 0xB9
  | Simulation.Rudder => 0xBA
  | Simulation.Throttle => 0xBB
  | Simulation.FlightCommunication => 0xBC
  | Simulation.FlareRelease => 0xBD
  | Simulation.LandingGear => 0xBE
  | Simulation.ToeBrake => 0xBF
  | Simulation.Trigger => 0xC0
  | Simulation.WeaponsArm => 0xC1
  | Simulation.WeaponsSelect => 0xC2
  | Simulation.WingFlaps => 0xC3
  | Simulation.Accelerator => 0xC4
  | Simulation.Brake => 0xC5
  | Simulation.Clutch => 0xC6
  | Simulation.Shifter => 0xC7
  | Simulation.Steering => 0xC8
  | Simulation.TurretDirection => 0xC9
  | Simulation.BarrelElevation => 0xCA
  | Simulation.DivePlane => 0xCB
  | Simulation.Ballast => 0xCC
  | Simulation.BicycleCrank => 0xCD
  | Simulation.HandleBars => 0xCE
  | Simulation.FrontBrake => 0xCF
  | Simulation.RearBrake => 0xD0

/-- All variants of the `Simulation` enum in declaration order. -/
def variants : List Simulation := [
  Simulation.Undefined, Simulation.FlightSimulationDevice, Simulation.AutomobileSimulationDevice,
  Simulation.TankSimulationDevice, Simulation.SpaceshipSimulationDevice,
  Simulation.SubmarineSimulationDevice, Simulation.SailingSimulationDevice,
  Simulation.MotorcycleSimulationDevice, Simulation.SportsSimulationDevice,
  Simulation.AirplaneSimulationDevice, Simulation.HelicopterSimulationDevice,
  Simulation.MagicCarpetSimulationDevice, Simulation.Bicycle, Simulation.FlightControlStick,
  Simulation.FlightStick, Simulation.CyclicControl, Simulation.CyclicTrim, Simulation.FlightYoke,
  Simulation.TrackControl, Simulation.DrivingControl, Simulation.Aileron, Simulation.AileronTrim,
  Simulation.AntiTorqueControl, Simulation.AutoPilotEnable, Simulation.ChaffRelease,
  Simulation.CollectiveControl, Simulation.DiveBrake, Simulation.ElectronicCounterMeasures,
  Simulation.Elevator, Simulation.ElevatorTrim, Simulation.Rudder, Simulation.Throttle,
  Simulation.FlightCommunication, Simulation.FlareRelease, Simulation.LandingGear,
  Simulation.ToeBrake, Simulation.Trigger, Simulation.WeaponsArm, Simulation.WeaponsSelect,
  Simulation.WingFlaps, Simulation.Accelerator, Simulation.Brake, Simulation.Clutch,
  Simulation.Shifter, Simulation.Steering, Simulation.TurretDirection,
  Simulation.BarrelElevation, Simulation.DivePlane, Simulation.Ballast, Simulation.BicycleCrank,
  Simulation.HandleBars, Simulation.FrontBrake, Simulation.RearBrake]

/-- The IntoPrimitive conversion of the `Simulation` enum: a fieldless enum converts
to its `u8` discriminant value. -/
def toCode (v : Simulation) : Nat := code v

/-- The Default impl for `Simulation` in src/lib/src/page.rs returns `Undefined`. -/
def default : Simulation := Simulation.Undefined

/-- The num_enum FromPrimitive conversion for `Simulation`: the generated match tries
each declared discriminant and falls back to the variant marked num_enum default
(`Undefined`, which is also the Default value) on any other input. -/
def fromCode (c : Nat) : Simulation :=
  (variants.find? (fun v => code v == c)).getD default

/-- The derived Ord for the `Simulation` enum: Rust orders fieldless enum values by
comparing their discriminant values. -/
def cmp (a b : Simulation) : Ordering := compare (code a) (code b)

/-- The strict order given by the derived PartialOrd/Ord of `Simulation`. -/
def lt (a b : Simulation) : Prop := cmp a b = Ordering.lt

/-- The hash32 Hash impl for `Simulation` in src/lib/src/page.rs: it converts the value
to its u8 code and writes the little-endian bytes of that code to the hasher;
this list is the byte sequence the hasher consumes. -/
def hashBytes (v : Simulation) : List Nat := u8ToLeBytes (code v)

/-- The named (non-fallback) variants of `Simulation`: every variant except the
fallback `Undefined`, which is declared first. -/
def namedVariants : List Simulation := variants.drop 1

/-- The codes assigned to named variants of `Simulation`. -/
def namedCodes : List Nat := namedVariants.map code

/-- All assigned codes of `Simulation`, the fallback code 0 included. -/
def assignedCodes : List Nat := variants.map code

end Simulation

/-- The `Telephony` usage page enum of src/lib/src/page.rs (Section 14 Telephony Device Page (0x0B)), a
fieldless Rust enum with `repr(u8)` and one explicit discriminant per variant;
the first variant `Unassigned` carries the num_enum default attribute. -/
inductive Telephony where
  | Unassigned
  | Phone
  | AnsweringMachine
  | MessageControls
  | Handset
  | Headset
  | TelephonyKeyPad
  | ProgrammableButton
  | HookSwitch
  | Flash
  | Feature
  | Hold
  | Redial
  | Transfer
  | Drop
  | Park
  | ForwardCalls
  | AlternateFunction
  | Line
  | SpeakerPhone
  | Conference
  | RingEnable
  | RingSelect
  | PhoneMute
  | CallerID
  | Send
  | SpeedDial
  | StoreNumber
  | RecallNumber
  | PhoneDirectory
  | VoiceMail
  | ScreenCalls
  | DoNotDisturb
  | Message
  | AnswerOnOff
  | InsideDialTone
  | OutsideDialTone
  | InsideRingTone
  | OutsideRingTone
  | PriorityRingTone
  | InsideRingback
  | PriorityRingback
  | LineBusyTone
  | ReorderTone
  | CallWaitingTone
  | ConfirmationTone1
  | ConfirmationTone2
  | TonesOff
  | OutsideRingback
  | Ringer
  | PhoneKey0
  | PhoneKey1
  | PhoneKey2
  | PhoneKey3
  | PhoneKey4
  | PhoneKey5
  | PhoneKey6
  | PhoneKey7
  | PhoneKey8
  | PhoneKey9
  | PhoneKeyStar
  | PhoneKeyPound
  | PhoneKeyA
  | PhoneKeyB
  | PhoneKeyC
  | PhoneKeyD
deriving DecidableEq

namespace Telephony

/-- The explicit discriminant of each variant of `Telephony`, exactly as declared in
src/lib/src/page.rs; this is the numeric value that IntoPrimitive, FromPrimitive
and the derived Ord all read. -/
def code : Telephony → Nat
  | Telephony.Unassigned => 0x00
  | Telephony.Phone => 0x01
  | Telephony.AnsweringMachine => 0x02
  | Telephony.MessageControls => 0x03
  | Telephony.Handset => 0x04
  | Telephony.Headset => 0x05
  | Telephony.TelephonyKeyPad => 0x06
  | Telephony.ProgrammableButton => 0x07
  | Telephony.HookSwitch => 0x20
  | Telephony.Flash => 0x21
  | Telephony.Feature => 0x22
  | Telephony.Hold => 0x23
  | Telephony.Redial => 0x24
  | Telephony.Transfer => 0x25
  | Telephony.Drop => 0x26
  | Telephony.Park => 0x27
  | Telephony.ForwardCalls => 0x28
  | Telephony.AlternateFunction => 0x29
  | Telephony.Line => 0x2A
  | Telephony.SpeakerPhone => 0x2B
  | Telephony.Conference => 0x2C
  | Telephony.RingEnable => 0x2D
  | Telephony.RingSelect => 0x2E
  | Telephony.PhoneMute => 0x2F
  | Telephony.CallerID => 0x30
  | Telephony.Send => 0x31
  | Telephony.SpeedDial => 0x50
  | Telephony.StoreNumber => 0x51
  | Telephony.RecallNumber => 0x52
  | Telephony.PhoneDirectory => 0x53
  | Telephony.VoiceMail => 0x70
  | Telephony.ScreenCalls => 0x71
  | Telephony.DoNotDisturb => 0x72
  | Telephony.Message => 0x73
  | Telephony.AnswerOnOff => 0x74
  | Telephony.InsideDialTone => 0x90
  | Telephony.OutsideDialTone => 0x91
  | Telephony.InsideRingTone => 0x92
  | Telephony.OutsideRingTone => 0x93
  | Telephony.PriorityRingTone => 0x94
  | Telephony.InsideRingback => 0x95
  | Telephony.PriorityRingback => 0x96
  | Telephony.LineBusyTone => 0x97
  | Telephony.ReorderTone => 0x98
  | Telephony.CallWaitingTone => 0x99
  | Telephony.ConfirmationTone1 => 0x9A
  | Telephony.ConfirmationTone2 => 0x9B
  | Telephony.TonesOff => 0x9C
  | Telephony.OutsideRingback => 0x9D
  | Telephony.Ringer => 0x9E
  | Telephony.PhoneKey0 => 0xB0
  | Telephony.PhoneKey1 => 0xB1
  | Telephony.PhoneKey2 => 0xB2
  | Telephony.PhoneKey3 => 0xB3
  | Telephony.PhoneKey4 => 0xB4
  | Telephony.PhoneKey5 => 0xB5
  | Telephony.PhoneKey6 => 0xB6
  | Telephony.PhoneKey7 => 0xB7
  | Telephony.PhoneKey8 => 0xB8
  | Telephony.PhoneKey9 => 0xB9
  | Telephony.PhoneKeyStar => 0xBA
  | Telephony.PhoneKeyPound => 0xBB
  | Telephony.PhoneKeyA => 0xBC
  | Telephony.PhoneKeyB => 0xBD
  | Telephony.PhoneKeyC => 0xBE
  | Telephony.PhoneKeyD => 0xBF

/-- All variants of the `Telephony` enum in declaration order. -/
def variants : List Telephony := [
  Telephony.Unassigned, Telephony.Phone, Telephony.AnsweringMachine, Telephony.MessageControls,
  Telephony.Handset, Telephony.Headset, Telephony.TelephonyKeyPad, Telephony.ProgrammableButton,
  Telephony.HookSwitch, Telephony.Flash, Telephony.Feature, Telephony.Hold, Telephony.Redial,
  Telephony.Transfer, Telephony.Drop, Telephony.Park, Telephony.ForwardCalls,
  Telephony.AlternateFunction, Telephony.Line, Telephony.SpeakerPhone, Telephony.Conference,
  Telephony.RingEnable, Telephony.RingSelect, Telephony.PhoneMute, Telephony.CallerID,
  Telephony.Send, Telephony.SpeedDial, Telephony.StoreNumber, Telephony.RecallNumber,
  Telephony.PhoneDirectory, Telephony.VoiceMail, Telephony.ScreenCalls, Telephony.DoNotDisturb,
  Telephony.Message, Telephony.AnswerOnOff, Telephony.InsideDialTone, Telephony.OutsideDialTone,
  Telephony.InsideRingTone, Telephony.OutsideRingTone, Telephony.PriorityRingTone,
  Telephony.InsideRingback, Telephony.PriorityRingback, Telephony.LineBusyTone,
  Telephony.ReorderTone, Telephony.CallWaitingTone, Telephony.ConfirmationTone1,
  Telephony.ConfirmationTone2, Telephony.TonesOff, Telephony.OutsideRingback, Telephony.Ringer,
  Telephony.PhoneKey0, Telephony.PhoneKey1, Telephony.PhoneKey2, Telephony.PhoneKey3,
  Telephony.PhoneKey4, Telephony.PhoneKey5, Telephony.PhoneKey6, Telephony.PhoneKey7,
  Telephony.PhoneKey8, Telephony.PhoneKey9, Telephony.PhoneKeyStar, Telephony.PhoneKeyPound,
  Telephony.PhoneKeyA, Telephony.PhoneKeyB, Telephony.PhoneKeyC, Telephony.PhoneKeyD]

/-- The IntoPrimitive conversion of the `Telephony` enum: a fieldless enum converts
to its `u8` discriminant value. -/
def toCode (v : Telephony) : Nat := code v

/-- The Default impl for `Telephony` in src/lib/src/page.rs returns `Unassigned`. -/
def default : Telephony := Telephony.Unassigned

/-- The num_enum FromPrimitive conversion for `Telephony`: the generated match tries
each declared discriminant and falls back to the variant marked num_enum default
(`Unassigned`, which is also the Default value) on any other input. -/
def fromCode (c : Nat) : Telephony :=
  (variants.find? (fun v => code v == c)).getD default

/-- The derived Ord for the `Telephony` enum: Rust orders fieldless enum values by
comparing their discriminant values. -/
def cmp (a b : Telephony) : Ordering := compare (code a) (code b)

/-- The strict order given by the derived PartialOrd/Ord of `Telephony`. -/
def lt (a b : Telephony) : Prop := cmp a b = Ordering.lt

/-- The hash32 Hash impl for `Telephony` in src/lib/src/page.rs: it converts the value
to its u8 code and writes the little-endian bytes of that code to the hasher;
this list is the byte sequence the hasher consumes. -/
def hashBytes (v : Telephony) : List Nat := u8ToLeBytes (code v)

/-- The named (non-fallback) variants of `Telephony`: every variant except the
fallback `Unassigned`, which is declared first. -/
def namedVariants : List Telephony := variants.drop 1

/-- The codes assigned to named variants of `Telephony`. -/
def namedCodes : List Nat := namedVariants.map code

/-- All assigned codes of `Telephony`, the fallback code 0 included. -/
def assignedCodes : List Nat := variants.map code

end Telephony

/-- The keys array built on each successful poll in the report loop of
src/src/bin/consumer_fixed.rs: one entry per digital input line in0..in6; an
active (low) line contributes its fixed bit value and an inactive line
contributes 0x00. -/
def keys (i0 i1 i2 i3 i4 i5 i6 : Bool) : List Nat :=
  [if i0 then 0x1 else 0x00,
   if i1 then 0x2 else 0x00,
   if i2 then 0x4 else 0x00,
   if i3 then 0x8 else 0x00,
   if i4 then 0x10 else 0x00,
   if i5 then 0x20 else 0x00,
   if i6 then 0x40 else 0x00]

/-- The report byte handed to write_report in consumer_fixed.rs: the keys array
reduced with bitwise or, defaulting to 0 were the array empty. -/
def report_code (i0 i1 i2 i3 i4 i5 i6 : Bool) : Nat :=
  match keys i0 i1 i2 i3 i4 i5 i6 with
  | [] => 0
  | a :: rest => rest.foldl (fun x y => x ||| y) a

/-- Stated from the spec wording, for comparison against the loop: the bitwise
OR of the bit values of exactly the active lines; inactive lines contribute
nothing and no active line yields 0. -/
def specOrOfActiveLines (bits : List Nat) (active : List Bool) : Nat :=
  (((bits.zip active).filter (fun p => p.2)).map (fun p => p.1)).foldr
    (fun x y => x ||| y) 0

/-- Generic shape of the registry lookup: the found-or-default value is a member
of the searched list whenever the default itself is. -/
theorem getD_find?_mem {α : Type} {l : List α} {p : α → Bool} {d : α} (hd : d ∈ l) :
    (l.find? p).getD d ∈ l := by
  cases h : l.find? p with
  | none => simpa using hd
  | some a => simpa using List.mem_of_find?_eq_some h

/-- A find?-with-default lookup yields the default when nothing satisfies the
predicate. -/
theorem getD_find?_eq_default {α : Type} {l : List α} {p : α → Bool} {d : α}
    (h : ∀ v ∈ l, ¬ p v) : (l.find? p).getD d = d := by
  rw [List.find?_eq_none.mpr h]
  rfl

/-- Looking up the code of a listed value finds that value back when the listed
codes are pairwise distinct. -/
theorem getD_find?_self {α : Type} {l : List α} {f : α → Nat} {d : α} {v : α}
    (hn : (l.map f).Nodup) (hv : v ∈ l) :
    (l.find? (fun u => f u == f v)).getD d = v := by
  cases hfind : l.find? (fun u => f u == f v) with
  | none => exact absurd (by simp) (List.find?_eq_none.mp hfind v hv)
  | some u =>
    have hu : u ∈ l := List.mem_of_find?_eq_some hfind
    have heq : f u = f v := by simpa using List.find?_some hfind
    simpa using List.inj_on_of_nodup_map hn hu hv heq

/-- The code of a found-or-default lookup result is the searched code whenever
some listed value carries that code. -/
theorem code_getD_find? {α : Type} {l : List α} {f : α → Nat} {d : α} {c : Nat}
    (h : ∃ v, v ∈ l ∧ f v = c) : f ((l.find? (fun v => f v == c)).getD d) = c := by
  obtain ⟨v, hv, hc⟩ := h
  cases hfind : l.find? (fun v => f v == c) with
  | none => exact absurd (by simp [hc]) (List.find?_eq_none.mp hfind v hv)
  | some u => simpa using List.find?_some hfind

/-- A cons-headed lookup whose searched code belongs to no tail element
collapses to the head, whether or not the head itself matches. -/
theorem getD_find?_cons_not_mem {α : Type} {d : α} {t : List α} {f : α → Nat} {c : Nat}
    (h : c ∉ t.map f) : (((d :: t).find? (fun v => f v == c)).getD d) = d := by
  have htail : t.find? (fun v => f v == c) = none := by
    refine List.find?_eq_none.mpr (fun v hv hp => h ?_)
    have hfv : f v = c := by simpa using hp
    exact hfv ▸ List.mem_map_of_mem f hv
  cases hd : (f d == c) with
  | true => simp [List.find?_cons, hd]
  | false => simp [List.find?_cons, hd, htail]

/-- The Leds declaration list starts with the fallback default. -/
theorem leds_variants_eq_cons : Leds.variants = Leds.default :: Leds.namedVariants := rfl

/-- No two Leds variants share a discriminant. -/
theorem leds_codes_nodup : (Leds.variants.map Leds.code).Nodup := by decide

/-- The Consumer declaration list starts with the fallback default. -/
theorem consumer_variants_eq_cons :
    Consumer.variants = Consumer.default :: Consumer.namedVariants := rfl

/-- No two Consumer variants share a discriminant. -/
theorem consumer_codes_nodup : (Consumer.variants.map Consumer.code).Nodup := by decide

/-- The Desktop declaration list starts with the fallback default. -/
theorem desktop_variants_eq_cons :
    Desktop.variants = Desktop.default :: Desktop.namedVariants := rfl

/-- No two Desktop variants share a discriminant. -/
theorem desktop_codes_nodup : (Desktop.variants.map Desktop.code).Nodup := by decide

/-- The Game declaration list starts with the fallback default. -/
theorem game_variants_eq_cons : Game.variants = Game.default :: Game.namedVariants := rfl

/-- No two Game variants share a discriminant. -/
theorem game_codes_nodup : (Game.variants.map Game.code).Nodup := by decide

/-- The Keyboard declaration list starts with the fallback default. -/
theorem keyboard_variants_eq_cons :
    Keyboard.variants = Keyboard.default :: Keyboard.namedVariants := rfl

/-- No two Keyboard variants share a discriminant. -/
theorem keyboard_codes_nodup : (Keyboard.variants.map Keyboard.code).Nodup := by decide

/-- The Simulation declaration list starts with the fallback default. -/
theorem simulation_variants_eq_cons :
    Simulation.variants = Simulation.default :: Simulation.namedVariants := rfl

/-- No two Simulation variants share a discriminant. -/
theorem simulation_codes_nodup : (Simulation.variants.map Simulation.code).Nodup := by decide

/-- The Telephony declaration list starts with the fallback default. -/
theorem telephony_variants_eq_cons :
    Telephony.variants = Telephony.default :: Telephony.namedVariants := rfl

/-- No two Telephony variants share a discriminant. -/
theorem telephony_codes_nodup : (Telephony.variants.map Telephony.code).Nodup := by decide

/-- C1: for every usage page (Leds, Consumer, Desktop, Game, Keyboard,
Simulation, Telephony) and every code representable in the page's code width
(u8, or u16 for Consumer), fromCode is total: it returns a variant of the
page's enum, never failing and never panicking. -/
theorem fromCode_total :
    (∀ c : Nat, c < 2 ^ 8 → Leds.fromCode c ∈ Leds.variants) ∧
    (∀ c : Nat, c < 2 ^ 16 → Consumer.fromCode c ∈ Consumer.variants) ∧
    (∀ c : Nat, c < 2 ^ 8 → Desktop.fromCode c ∈ Desktop.variants) ∧
    (∀ c : Nat, c < 2 ^ 8 → Game.fromCode c ∈ Game.variants) ∧
    (∀ c : Nat, c < 2 ^ 8 → Keyboard.fromCode c ∈ Keyboard.variants) ∧
    (∀ c : Nat, c < 2 ^ 8 → Simulation.fromCode c ∈ Simulation.variants) ∧
    (∀ c : Nat, c < 2 ^ 8 → Telephony.fromCode c ∈ Telephony.variants) := by
  refine ⟨fun c _ => ?_, fun c _ => ?_, fun c _ => ?_, fun c _ => ?_, fun c _ => ?_,
    fun c _ => ?_, fun c _ => ?_⟩
  · exact getD_find?_mem (by rw [leds_variants_eq_cons]; exact List.mem_cons_self _ _)
  · exact getD_find?_mem (by rw [consumer_variants_eq_cons]; exact List.mem_cons_self _ _)
  · exact getD_find?_mem (by rw [desktop_variants_eq_cons]; exact List.mem_cons_self _ _)
  · exact getD_find?_mem (by rw [game_variants_eq_cons]; exact List.mem_cons_self _ _)
  · exact getD_find?_mem (by rw [keyboard_variants_eq_cons]; exact List.mem_cons_self _ _)
  · exact getD_find?_mem (by rw [simulation_variants_eq_cons]; exact List.mem_cons_self _ _)
  · exact getD_find?_mem (by rw [telephony_variants_eq_cons]; exact List.mem_cons_self _ _)

/-- Witness for C1: the reserved Consumer code 0x123 still yields a variant. -/
theorem fromCode_total_witness : Consumer.fromCode 0x123 ∈ Consumer.variants :=
  fromCode_total.2.1 0x123 (by decide)

/-- C2: for every usage page, any representable code that is the assigned code
of no named variant converts to the page's fallback variant, which is also its
Default value. -/
theorem fromCode_fallback :
    (∀ c : Nat, c < 2 ^ 8 → c ∉ Leds.namedCodes → Leds.fromCode c = Leds.default) ∧
    (∀ c : Nat, c < 2 ^ 16 → c ∉ Consumer.namedCodes → Consumer.fromCode c = Consumer.default) ∧
    (∀ c : Nat, c < 2 ^ 8 → c ∉ Desktop.namedCodes → Desktop.fromCode c = Desktop.default) ∧
    (∀ c : Nat, c < 2 ^ 8 → c ∉ Game.namedCodes → Game.fromCode c = Game.default) ∧
    (∀ c : Nat, c < 2 ^ 8 → c ∉ Keyboard.namedCodes → Keyboard.fromCode c = Keyboard.default) ∧
    (∀ c : Nat, c < 2 ^ 8 → c ∉ Simulation.namedCodes → Simulation.fromCode c = Simulation.default) ∧
    (∀ c : Nat, c < 2 ^ 8 → c ∉ Telephony.namedCodes → Telephony.fromCode c = Telephony.default) := by
  refine ⟨fun c _ hc => ?_, fun c _ hc => ?_, fun c _ hc => ?_, fun c _ hc => ?_,
    fun c _ hc => ?_, fun c _ hc => ?_, fun c _ hc => ?_⟩
  · unfold Leds.fromCode
    rw [leds_variants_eq_cons]
    exact getD_find?_cons_not_mem (by simpa [Leds.namedCodes] using hc)
  · unfold Consumer.fromCode
    rw [consumer_variants_eq_cons]
    exact getD_find?_cons_not_mem (by simpa [Consumer.namedCodes] using hc)
  · unfold Desktop.fromCode
    rw [desktop_variants_eq_cons]
    exact getD_find?_cons_not_mem (by simpa [Desktop.namedCodes] using hc)
  · unfold Game.fromCode
    rw [game_variants_eq_cons]
    exact getD_find?_cons_not_mem (by simpa [Game.namedCodes] using hc)
  · unfold Keyboard.fromCode
    rw [keyboard_variants_eq_cons]
    exact getD_find?_cons_not_mem (by simpa [Keyboard.namedCodes] using hc)
  · unfold Simulation.fromCode
    rw [simulation_variants_eq_cons]
    exact getD_find?_cons_not_mem (by simpa [Simulation.namedCodes] using hc)
  · unfold Telephony.fromCode
    rw [telephony_variants_eq_cons]
    exact getD_find?_cons_not_mem (by simpa [Telephony.namedCodes] using hc)

/-- Witness for C2: the reserved Consumer code 0x9F resolves to the fallback. -/
theorem fromCode_fallback_witness : Consumer.fromCode 0x9F = Consumer.default :=
  fromCode_fallback.2.1 0x9F (by decide) (by decide)

/-- C3: for every usage page and every named (non-fallback) variant, converting
the variant to its code and back returns the same variant. -/
theorem fromCode_toCode_roundtrip :
    (∀ v ∈ Leds.namedVariants, Leds.fromCode (Leds.toCode v) = v) ∧
    (∀ v ∈ Consumer.namedVariants, Consumer.fromCode (Consumer.toCode v) = v) ∧
    (∀ v ∈ Desktop.namedVariants, Desktop.fromCode (Desktop.toCode v) = v) ∧
    (∀ v ∈ Game.namedVariants, Game.fromCode (Game.toCode v) = v) ∧
    (∀ v ∈ Keyboard.namedVariants, Keyboard.fromCode (Keyboard.toCode v) = v) ∧
    (∀ v ∈ Simulation.namedVariants, Simulation.fromCode (Simulation.toCode v) = v) ∧
    (∀ v ∈ Telephony.namedVariants, Telephony.fromCode (Telephony.toCode v) = v) := by
  refine ⟨fun v hv => ?_, fun v hv => ?_, fun v hv => ?_, fun v hv => ?_, fun v hv => ?_,
    fun v hv => ?_, fun v hv => ?_⟩
  · exact getD_find?_self leds_codes_nodup (List.drop_subset 1 Leds.variants hv)
  · exact getD_find?_self consumer_codes_nodup (List.drop_subset 1 Consumer.variants hv)
  · exact getD_find?_self desktop_codes_nodup (List.drop_subset 1 Desktop.variants hv)
  · exact getD_find?_self game_codes_nodup (List.drop_subset 1 Game.variants hv)
  · exact getD_find?_self keyboard_codes_nodup (List.drop_subset 1 Keyboard.variants hv)
  · exact getD_find?_self simulation_codes_nodup (List.drop_subset 1 Simulation.variants hv)
  · exact getD_find?_self telephony_codes_nodup (List.drop_subset 1 Telephony.variants hv)

/-- Witness for C3 at the named Consumer variant Play. -/
theorem fromCode_toCode_roundtrip_witness :
    Consumer.fromCode (Consumer.toCode Consumer.Play) = Consumer.Play :=
  fromCode_toCode_roundtrip.2.1 Consumer.Play (by decide)

/-- C4: for every usage page, the code conversion is injective on named
variants: two distinct named variants of one page never share a code. -/
theorem toCode_injective_named :
    (∀ v1 ∈ Leds.namedVariants, ∀ v2 ∈ Leds.namedVariants,
      v1 ≠ v2 → Leds.toCode v1 ≠ Leds.toCode v2) ∧
    (∀ v1 ∈ Consumer.namedVariants, ∀ v2 ∈ Consumer.namedVariants,
      v1 ≠ v2 → Consumer.toCode v1 ≠ Consumer.toCode v2) ∧
    (∀ v1 ∈ Desktop.namedVariants, ∀ v2 ∈ Desktop.namedVariants,
      v1 ≠ v2 → Desktop.toCode v1 ≠ Desktop.toCode v2) ∧
    (∀ v1 ∈ Game.namedVariants, ∀ v2 ∈ Game.namedVariants,
      v1 ≠ v2 → Game.toCode v1 ≠ Game.toCode v2) ∧
    (∀ v1 ∈ Keyboard.namedVariants, ∀ v2 ∈ Keyboard.namedVariants,
      v1 ≠ v2 → Keyboard.toCode v1 ≠ Keyboard.toCode v2) ∧
    (∀ v1 ∈ Simulation.namedVariants, ∀ v2 ∈ Simulation.namedVariants,
      v1 ≠ v2 → Simulation.toCode v1 ≠ Simulation.toCode v2) ∧
    (∀ v1 ∈ Telephony.namedVariants, ∀ v2 ∈ Telephony.namedVariants,
      v1 ≠ v2 → Telephony.toCode v1 ≠ Telephony.toCode v2) := by
  refine ⟨fun v1 h1 v2 h2 hne heq => hne ?_, fun v1 h1 v2 h2 hne heq => hne ?_,
    fun v1 h1 v2 h2 hne heq => hne ?_, fun v1 h1 v2 h2 hne heq => hne ?_,
    fun v1 h1 v2 h2 hne heq => hne ?_, fun v1 h1 v2 h2 hne heq => hne ?_,
    fun v1 h1 v2 h2 hne heq => hne ?_⟩
  · exact List.inj_on_of_nodup_map leds_codes_nodup
      (List.drop_subset 1 Leds.variants h1) (List.drop_subset 1 Leds.variants h2) heq
  · exact List.inj_on_of_nodup_map consumer_codes_nodup
      (List.drop_subset 1 Consumer.variants h1) (List.drop_subset 1 Consumer.variants h2) heq
  · exact List.inj_on_of_nodup_map desktop_codes_nodup
      (List.drop_subset 1 Desktop.variants h1) (List.drop_subset 1 Desktop.variants h2) heq
  · exact List.inj_on_of_nodup_map game_codes_nodup
      (List.drop_subset 1 Game.variants h1) (List.drop_subset 1 Game.variants h2) heq
  · exact List.inj_on_of_nodup_map keyboard_codes_nodup
      (List.drop_subset 1 Keyboard.variants h1) (List.drop_subset 1 Keyboard.variants h2) heq
  · exact List.inj_on_of_nodup_map simulation_codes_nodup
      (List.drop_subset 1 Simulation.variants h1) (List.drop_subset 1 Simulation.variants h2) heq
  · exact List.inj_on_of_nodup_map telephony_codes_nodup
      (List.drop_subset 1 Telephony.variants h1) (List.drop_subset 1 Telephony.variants h2) heq

/-- Witness for C4 at the named Consumer variants Play and Volume. -/
theorem toCode_injective_named_witness :
    Consumer.toCode Consumer.Play ≠ Consumer.toCode Consumer.Volume :=
  toCode_injective_named.2.1 Consumer.Play (by decide) Consumer.Volume (by decide) (by decide)

/-- C5: for every usage page, the derived ordering agrees with the unsigned
order of the codes; in particular Consumer Play (0xB0) is below Volume (0xE0). -/
theorem lt_iff_toCode_lt :
    (∀ a b : Leds, Leds.lt a b ↔ Leds.toCode a < Leds.toCode b) ∧
    (∀ a b : Consumer, Consumer.lt a b ↔ Consumer.toCode a < Consumer.toCode b) ∧
    (∀ a b : Desktop, Desktop.lt a b ↔ Desktop.toCode a < Desktop.toCode b) ∧
    (∀ a b : Game, Game.lt a b ↔ Game.toCode a < Game.toCode b) ∧
    (∀ a b : Keyboard, Keyboard.lt a b ↔ Keyboard.toCode a < Keyboard.toCode b) ∧
    (∀ a b : Simulation, Simulation.lt a b ↔ Simulation.toCode a < Simulation.toCode b) ∧
    (∀ a b : Telephony, Telephony.lt a b ↔ Telephony.toCode a < Telephony.toCode b) ∧
    Consumer.lt Consumer.Play Consumer.Volume := by
  refine ⟨fun a b => ?_, fun a b => ?_, fun a b => ?_, fun a b => ?_, fun a b => ?_,
    fun a b => ?_, fun a b => ?_, ?_⟩
  · exact Nat.compare_eq_lt
  · exact Nat.compare_eq_lt
  · exact Nat.compare_eq_lt
  · exact Nat.compare_eq_lt
  · exact Nat.compare_eq_lt
  · exact Nat.compare_eq_lt
  · exact Nat.compare_eq_lt
  · exact Nat.compare_eq_lt.mpr (by decide)

/-- C6: for every usage page and all declared variants, equality coincides with
equality of codes; the hash input is exactly the little-endian byte sequence of
the code, so equal variants hash identically. -/
theorem eq_iff_toCode_eq_and_hash :
    (∀ v1 ∈ Leds.variants, ∀ v2 ∈ Leds.variants,
      (v1 = v2 ↔ Leds.toCode v1 = Leds.toCode v2) ∧
      Leds.hashBytes v1 = u8ToLeBytes (Leds.toCode v1) ∧
      (v1 = v2 → Leds.hashBytes v1 = Leds.hashBytes v2)) ∧
    (∀ v1 ∈ Consumer.variants, ∀ v2 ∈ Consumer.variants,
      (v1 = v2 ↔ Consumer.toCode v1 = Consumer.toCode v2) ∧
      Consumer.hashBytes v1 = u16ToLeBytes (Consumer.toCode v1) ∧
      (v1 = v2 → Consumer.hashBytes v1 = Consumer.hashBytes v2)) ∧
    (∀ v1 ∈ Desktop.variants, ∀ v2 ∈ Desktop.variants,
      (v1 = v2 ↔ Desktop.toCode v1 = Desktop.toCode v2) ∧
      Desktop.hashBytes v1 = u8ToLeBytes (Desktop.toCode v1) ∧
      (v1 = v2 → Desktop.hashBytes v1 = Desktop.hashBytes v2)) ∧
    (∀ v1 ∈ Game.variants, ∀ v2 ∈ Game.variants,
      (v1 = v2 ↔ Game.toCode v1 = Game.toCode v2) ∧
      Game.hashBytes v1 = u8ToLeBytes (Game.toCode v1) ∧
      (v1 = v2 → Game.hashBytes v1 = Game.hashBytes v2)) ∧
    (∀ v1 ∈ Keyboard.variants, ∀ v2 ∈ Keyboard.variants,
      (v1 = v2 ↔ Keyboard.toCode v1 = Keyboard.toCode v2) ∧
      Keyboard.hashBytes v1 = u8ToLeBytes (Keyboard.toCode v1) ∧
      (v1 = v2 → Keyboard.hashBytes v1 = Keyboard.hashBytes v2)) ∧
    (∀ v1 ∈ Simulation.variants, ∀ v2 ∈ Simulation.variants,
      (v1 = v2 ↔ Simulation.toCode v1 = Simulation.toCode v2) ∧
      Simulation.hashBytes v1 = u8ToLeBytes (Simulation.toCode v1) ∧
      (v1 = v2 → Simulation.hashBytes v1 = Simulation.hashBytes v2)) ∧
    (∀ v1 ∈ Telephony.variants, ∀ v2 ∈ Telephony.variants,
      (v1 = v2 ↔ Telephony.toCode v1 = Telephony.toCode v2) ∧
      Telephony.hashBytes v1 = u8ToLeBytes (Telephony.toCode v1) ∧
      (v1 = v2 → Telephony.hashBytes v1 = Telephony.hashBytes v2)) := by
  refine ⟨fun v1 h1 v2 h2 => ?_, fun v1 h1 v2 h2 => ?_, fun v1 h1 v2 h2 => ?_,
    fun v1 h1 v2 h2 => ?_, fun v1 h1 v2 h2 => ?_, fun v1 h1 v2 h2 => ?_,
    fun v1 h1 v2 h2 => ?_⟩
  · exact ⟨⟨fun h => by rw [h], fun h => List.inj_on_of_nodup_map leds_codes_nodup h1 h2 h⟩,
      rfl, fun h => by rw [h]⟩
  · exact ⟨⟨fun h => by rw [h], fun h => List.inj_on_of_nodup_map consumer_codes_nodup h1 h2 h⟩,
      rfl, fun h => by rw [h]⟩
  · exact ⟨⟨fun h => by rw [h], fun h => List.inj_on_of_nodup_map desktop_codes_nodup h1 h2 h⟩,
      rfl, fun h => by rw [h]⟩
  · exact ⟨⟨fun h => by rw [h], fun h => List.inj_on_of_nodup_map game_codes_nodup h1 h2 h⟩,
      rfl, fun h => by rw [h]⟩
  · exact ⟨⟨fun h => by rw [h], fun h => List.inj_on_of_nodup_map keyboard_codes_nodup h1 h2 h⟩,
      rfl, fun h => by rw [h]⟩
  · exact ⟨⟨fun h => by rw [h], fun h => List.inj_on_of_nodup_map simulation_codes_nodup h1 h2 h⟩,
      rfl, fun h => by rw [h]⟩
  · exact ⟨⟨fun h => by rw [h], fun h => List.inj_on_of_nodup_map telephony_codes_nodup h1 h2 h⟩,
      rfl, fun h => by rw [h]⟩

/-- Witness for C6 at the Consumer variants Play and Mute. -/
theorem eq_iff_toCode_eq_and_hash_witness :
    (Consumer.Play = Consumer.Mute ↔
      Consumer.toCode Consumer.Play = Consumer.toCode Consumer.Mute) ∧
    Consumer.hashBytes Consumer.Play = u16ToLeBytes (Consumer.toCode Consumer.Play) ∧
    (Consumer.Play = Consumer.Mute →
      Consumer.hashBytes Consumer.Play = Consumer.hashBytes Consumer.Mute) :=
  eq_iff_toCode_eq_and_hash.2.1 Consumer.Play (by decide) Consumer.Mute (by decide)

/-- C7: every page's Default value is its designated fallback variant, and that
fallback carries the assigned code 0. -/
theorem default_is_fallback_code_zero :
    (Leds.default = Leds.Undefined ∧ Leds.toCode Leds.default = 0) ∧
    (Consumer.default = Consumer.Unassigned ∧ Consumer.toCode Consumer.default = 0) ∧
    (Desktop.default = Desktop.Undefined ∧ Desktop.toCode Desktop.default = 0) ∧
    (Game.default = Game.Undefined ∧ Game.toCode Game.default = 0) ∧
    (Keyboard.default = Keyboard.NoEventIndicated ∧ Keyboard.toCode Keyboard.default = 0) ∧
    (Simulation.default = Simulation.Undefined ∧ Simulation.toCode Simulation.default = 0) ∧
    (Telephony.default = Telephony.Unassigned ∧ Telephony.toCode Telephony.default = 0) :=
  ⟨⟨rfl, rfl⟩, ⟨rfl, rfl⟩, ⟨rfl, rfl⟩, ⟨rfl, rfl⟩, ⟨rfl, rfl⟩, ⟨rfl, rfl⟩, ⟨rfl, rfl⟩⟩

/-- C8: the concrete conversions on the 16-bit Consumer page listed in the
spec's example scenarios. -/
theorem consumer_concrete_conversions :
    Consumer.fromCode 0x00 = Consumer.Unassigned ∧
    Consumer.fromCode 0xB0 = Consumer.Play ∧
    Consumer.toCode Consumer.Play = 0xB0 ∧
    Consumer.fromCode 0xE2 = Consumer.Mute ∧
    Consumer.toCode Consumer.Mute = 0xE2 ∧
    Consumer.fromCode 0x9F = Consumer.Unassigned ∧
    Consumer.fromCode 0x29D = Consumer.Unassigned ∧
    Consumer.fromCode 0xFFFF = Consumer.Unassigned :=
  ⟨by decide, by decide, by decide, by decide, by decide, by decide, by decide, by decide⟩

/-- C9: the report byte of the example loop equals the bitwise OR of the bit
values of exactly the active input lines; with only the stop (0x04) and mute
(0x10) lines active it is 0x14. -/
theorem report_code_or_of_active :
    (∀ i0 i1 i2 i3 i4 i5 i6 : Bool,
      report_code i0 i1 i2 i3 i4 i5 i6 =
        specOrOfActiveLines [0x1, 0x2, 0x4, 0x8, 0x10, 0x20, 0x40]
          [i0, i1, i2, i3, i4, i5, i6]) ∧
    report_code false false true false true false false = 0x14 := by
  refine ⟨fun i0 i1 i2 i3 i4 i5 i6 => ?_, rfl⟩
  cases i0 <;> cases i1 <;> cases i2 <;> cases i3 <;> cases i4 <;> cases i5 <;> cases i6 <;> rfl

/-- C10: for every usage page, converting a code to a symbol and back is the
identity exactly on assigned codes and collapses every other representable code
to 0. -/
theorem toCode_fromCode_collapse :
    (∀ c : Nat, c < 2 ^ 8 →
      (c ∈ Leds.assignedCodes → Leds.toCode (Leds.fromCode c) = c) ∧
      (c ∉ Leds.assignedCodes → Leds.toCode (Leds.fromCode c) = 0)) ∧
    (∀ c : Nat, c < 2 ^ 16 →
      (c ∈ Consumer.assignedCodes → Consumer.toCode (Consumer.fromCode c) = c) ∧
      (c ∉ Consumer.assignedCodes → Consumer.toCode (Consumer.fromCode c) = 0)) ∧
    (∀ c : Nat, c < 2 ^ 8 →
      (c ∈ Desktop.assignedCodes → Desktop.toCode (Desktop.fromCode c) = c) ∧
      (c ∉ Desktop.assignedCodes → Desktop.toCode (Desktop.fromCode c) = 0)) ∧
    (∀ c : Nat, c < 2 ^ 8 →
      (c ∈ Game.assignedCodes → Game.toCode (Game.fromCode c) = c) ∧
      (c ∉ Game.assignedCodes → Game.toCode (Game.fromCode c) = 0)) ∧
    (∀ c : Nat, c < 2 ^ 8 →
      (c ∈ Keyboard.assignedCodes → Keyboard.toCode (Keyboard.fromCode c) = c) ∧
      (c ∉ Keyboard.assignedCodes → Keyboard.toCode (Keyboard.fromCode c) = 0)) ∧
    (∀ c : Nat, c < 2 ^ 8 →
      (c ∈ Simulation.assignedCodes → Simulation.toCode (Simulation.fromCode c) = c) ∧
      (c ∉ Simulation.assignedCodes → Simulation.toCode (Simulation.fromCode c) = 0)) ∧
    (∀ c : Nat, c < 2 ^ 8 →
      (c ∈ Telephony.assignedCodes → Telephony.toCode (Telephony.fromCode c) = c) ∧
      (c ∉ Telephony.assignedCodes → Telephony.toCode (Telephony.fromCode c) = 0)) := by
  refine ⟨fun c _ => ⟨fun hc => ?_, fun hc => ?_⟩, fun c _ => ⟨fun hc => ?_, fun hc => ?_⟩,
    fun c _ => ⟨fun hc => ?_, fun hc => ?_⟩, fun c _ => ⟨fun hc => ?_, fun hc => ?_⟩,
    fun c _ => ⟨fun hc => ?_, fun hc => ?_⟩, fun c _ => ⟨fun hc => ?_, fun hc => ?_⟩,
    fun c _ => ⟨fun hc => ?_, fun hc => ?_⟩⟩
  · refine code_getD_find? ?_
    have hm : c ∈ List.map Leds.code Leds.variants := hc
    exact List.mem_map.mp hm
  · have h2 : Leds.fromCode c = Leds.default := by
      unfold Leds.fromCode
      refine getD_find?_eq_default (fun v hv hp => hc ?_)
      have hfv : Leds.code v = c := by simpa using hp
      have hm : c ∈ List.map Leds.code Leds.variants := hfv ▸ List.mem_map_of_mem Leds.code hv
      exact hm
    rw [h2]
    rfl
  · refine code_getD_find? ?_
    have hm : c ∈ List.map Consumer.code Consumer.variants := hc
    exact List.mem_map.mp hm
  · have h2 : Consumer.fromCode c = Consumer.default := by
      unfold Consumer.fromCode
      refine getD_find?_eq_default (fun v hv hp => hc ?_)
      have hfv : Consumer.code v = c := by simpa using hp
      have hm : c ∈ List.map Consumer.code Consumer.variants := hfv ▸ List.mem_map_of_mem Consumer.code hv
      exact hm
    rw [h2]
    rfl
  · refine code_getD_find? ?_
    have hm : c ∈ List.map Desktop.code Desktop.variants := hc
    exact List.mem_map.mp hm
  · have h2 : Desktop.fromCode c = Desktop.default := by
      unfold Desktop.fromCode
      refine getD_find?_eq_default (fun v hv hp => hc ?_)
      have hfv : Desktop.code v = c := by simpa using hp
      have hm : c ∈ List.map Desktop.code Desktop.variants := hfv ▸ List.mem_map_of_mem Desktop.code hv
      exact hm
    rw [h2]
    rfl
  · refine code_getD_find? ?_
    have hm : c ∈ List.map Game.code Game.variants := hc
    exact List.mem_map.mp hm
  · have h2 : Game.fromCode c = Game.default := by
      unfold Game.fromCode
      refine getD_find?_eq_default (fun v hv hp => hc ?_)
      have hfv : Game.code v = c := by simpa using hp
      have hm : c ∈ List.map Game.code Game.variants := hfv ▸ List.mem_map_of_mem Game.code hv
      exact hm
    rw [h2]
    rfl
  · refine code_getD_find? ?_
    have hm : c ∈ List.map Keyboard.code Keyboard.variants := hc
    exact List.mem_map.mp hm
  · have h2 : Keyboard.fromCode c = Keyboard.default := by
      unfold Keyboard.fromCode
      refine getD_find?_eq_default (fun v hv hp => hc ?_)
      have hfv : Keyboard.code v = c := by simpa using hp
      have hm : c ∈ List.map Keyboard.code Keyboard.variants := hfv ▸ List.mem_map_of_mem Keyboard.code hv
      exact hm
    rw [h2]
    rfl
  · refine code_getD_find? ?_
    have hm : c ∈ List.map Simulation.code Simulation.variants := hc
    exact List.mem_map.mp hm
  · have h2 : Simulation.fromCode c = Simulation.default := by
      unfold Simulation.fromCode
      refine getD_find?_eq_default (fun v hv hp => hc ?_)
      have hfv : Simulation.code v = c := by simpa using hp
      have hm : c ∈ List.map Simulation.code Simulation.variants := hfv ▸ List.mem_map_of_mem Simulation.code hv
      exact hm
    rw [h2]
    rfl
  · refine code_getD_find? ?_
    have hm : c ∈ List.map Telephony.code Telephony.variants := hc
    exact List.mem_map.mp hm
  · have h2 : Telephony.fromCode c = Telephony.default := by
      unfold Telephony.fromCode
      refine getD_find?_eq_default (fun v hv hp => hc ?_)
      have hfv : Telephony.code v = c := by simpa using hp
      have hm : c ∈ List.map Telephony.code Telephony.variants := hfv ▸ List.mem_map_of_mem Telephony.code hv
      exact hm
    rw [h2]
    rfl

/-- Witness for C10: Consumer code 0xB0 round-trips while the reserved 0x9F
collapses to 0. -/
theorem toCode_fromCode_collapse_witness :
    Consumer.toCode (Consumer.fromCode 0xB0) = 0xB0 ∧
    Consumer.toCode (Consumer.fromCode 0x9F) = 0 :=
  ⟨(toCode_fromCode_collapse.2.1 0xB0 (by decide)).1 (by decide),
   (toCode_fromCode_collapse.2.1 0x9F (by decide)).2 (by decide)⟩
